import Mathlib

/-!
Shallow embedding of the dvi-bridge repository (a set of Flask HTTP bridge
endpoints relaying vehicle-inspection data to a vendor API) and proofs about
the claims of its specification.

Python strings are modelled as Lean `String`; Python `None`-able values as
`Option`; Python exceptions as `Except String` (the error carries `str(e)`);
the remote vendor is modelled as an environment of call-outcome functions.
All definitions are translated from the repository sources
(`dvi_server_final.py`, `dvi_bridge.py`, `dvi_status.py`, `dvi_checklist.py`,
`JUNK/dvi_client.py`, `JUNK/dvi_media.py`, `config.py`), except where a doc
comment says a Python/requests standard-library function is being modelled.
-/

namespace DVI

/-! ## Python string primitives, modelled on `List Char`

Core `String.toLower`/`String.trim` do not reduce in the kernel, so the
Python string operations used by the repository are modelled directly on
character lists.  The repository only ever lowercases ASCII keyword text, so
`lowerChar` models `str.lower` on the ASCII range. -/

/-- Model of Python `str.lower` on one ASCII character. -/
def lowerChar (c : Char) : Char :=
  if 'A' ≤ c ∧ c ≤ 'Z' then Char.ofNat (c.toNat + 32) else c

/-- Model of Python `str.lower` (ASCII range). -/
def lowerStr (s : String) : String := String.mk (s.toList.map lowerChar)

/-- Boolean prefix test on character lists. -/
def listPreB : List Char → List Char → Bool
  | [], _ => true
  | _ :: _, [] => false
  | a :: as, b :: bs => a == b && listPreB as bs

/-- Boolean contiguous-sublist test on character lists. -/
def listInfB (n : List Char) : List Char → Bool
  | [] => listPreB n []
  | c :: cs => listPreB n (c :: cs) || listInfB n cs

/-- Model of the Python operator `needle in hay` on strings. -/
def strIn (needle hay : String) : Bool := listInfB needle.toList hay.toList

/-- Python truthiness of an optional string: `None` and `""` are falsy. -/
def truthyOpt : Option String → Bool
  | none => false
  | some s => s ≠ ""

/-! ## Data model: RO detail and checklist items (vendor JSON)

These mirror the fields the repository reads from the vendor JSON:
`Requests`, `LaborList[].Description`, `LaborList[].ID`, `CheckLists[].Name`,
and checklist items' `Title`/`ID`.  Absent-or-null JSON fields are `none`. -/

/-- One entry of `ro_detail["LaborList"]`. -/
structure Labor where
  Description : Option String
  ID : Option String
deriving DecidableEq, Repr

/-- One entry of `ro_detail["CheckLists"]`. -/
structure ChecklistEntry where
  Name : Option String
deriving DecidableEq, Repr

/-- The RO detail JSON object as read by the repository. -/
structure RODetail where
  Requests : Option String
  LaborList : List Labor
  CheckLists : List ChecklistEntry
deriving DecidableEq, Repr

/-- One checklist item as returned by `GetCheckListItemsV2`. -/
structure ItemRec where
  Title : Option String
  ID : Option String
deriving DecidableEq, Repr

/-! ## `JUNK/dvi_client.py`: pure lookup and detector functions -/

/-- Embedding of `find_labor_id_by_description` (dvi_client.py):
case-insensitive substring search of `target` in each labor's `Description`,
returning the first matching labor's truthy `ID`; a matching labor with a
falsy `ID` is skipped and the scan continues. -/
def find_labor_id_by_description (ro_detail : RODetail) (target : String) :
    Option String :=
  go ro_detail.LaborList
where
  /-- Scan of the labor list in order. -/
  go : List Labor → Option String
    | [] => none
    | labor :: rest =>
      let desc := lowerStr (labor.Description.getD "")
      if strIn (lowerStr target) desc && truthyOpt labor.ID then labor.ID
      else go rest

/-- The fixed keyword list of `ro_has_oil_service` (dvi_client.py). -/
def oil_keywords : List String :=
  ["oil change", "lube, oil", "oil capacity verified", "oil filter",
   "synthetic oil", "engine oil"]

/-- The fixed keyword list of `ro_has_wheel_work` (dvi_client.py). -/
def wheel_keywords : List String :=
  ["tire", "mount and balance", "wheel balance", "alignment", "brake",
   "cv axle", "strut", "shock", "control arm", "ball joint",
   "wheel bearing", "rim", "lug", "hub"]

/-- Does any keyword of `ks` occur in the (already lowercased) text `t`? -/
def textHasAny (t : String) (ks : List String) : Bool :=
  ks.any (fun k => strIn k t)

/-- Embedding of `ro_has_oil_service` (dvi_client.py): keyword scan over the
`Requests` text and every labor `Description`, plus a check for the literal
checklist name `"oil change signoff"`. -/
def ro_has_oil_service (d : RODetail) : Bool :=
  textHasAny (lowerStr (d.Requests.getD "")) oil_keywords
  || d.LaborList.any
      (fun l => textHasAny (lowerStr (l.Description.getD "")) oil_keywords)
  || d.CheckLists.any
      (fun c => strIn "oil change signoff" (lowerStr (c.Name.getD "")))

/-- Embedding of `ro_has_wheel_work` (dvi_client.py): keyword scan over the
`Requests` text and every labor `Description`, plus a check for the literal
checklist name `"wheel torque signoff"`. -/
def ro_has_wheel_work (d : RODetail) : Bool :=
  textHasAny (lowerStr (d.Requests.getD "")) wheel_keywords
  || d.LaborList.any
      (fun l => textHasAny (lowerStr (l.Description.getD "")) wheel_keywords)
  || d.CheckLists.any
      (fun c => strIn "wheel torque signoff" (lowerStr (c.Name.getD "")))

/-! ## Flag parsing (`dvi_server_final.py` lines 216-217, `dvi_bridge.py` `_form_bool`) -/

/-- A JSON/form scalar that a boolean flag field can carry. -/
inductive FlagVal
  | s (v : String)
  | b (v : Bool)
  | i (n : Int)
deriving DecidableEq, Repr

/-- Model of Python `str()` on the scalar values a flag field can hold. -/
def pyStr : FlagVal → String
  | .s v => v
  | .b true => "True"
  | .b false => "False"
  | .i n => toString n

/-- Whitespace characters removed by Python `str.strip()` (the ones that can
occur in this repository's inputs). -/
def isSpaceB (c : Char) : Bool :=
  c == ' ' || c == '\t' || c == '\n' || c == '\r'

/-- Model of Python `str.strip()` (no argument): remove leading and trailing
whitespace. -/
def pyStrip (s : String) : String :=
  String.mk (((s.toList.dropWhile isSpaceB).reverse.dropWhile isSpaceB).reverse)

/-- Embedding of the final server's flag parsing
(`str(data.get("move_to_start", "true")).lower() == "true"`,
dvi_server_final.py lines 216-217): `none` models an absent field, whose
default is the string `"true"`. -/
def finalFlagTrue (v : Option FlagVal) : Bool :=
  lowerStr (pyStr (v.getD (.s "true"))) == "true"

/-- Embedding of `_form_bool` (dvi_bridge.py lines 111-114):
`None` yields the default, otherwise
`str(val).strip().lower() in ("1", "true", "yes", "y", "on")`. -/
def form_bool (val : Option FlagVal) (default : Bool) : Bool :=
  match val with
  | none => default
  | some v => ["1", "true", "yes", "y", "on"].contains (lowerStr (pyStrip (pyStr v)))

/-! ## Vendor call model

The remote vendor API is modelled as an environment giving the outcome of
each call the bridge makes: `Except.ok` is the value a successful Python call
returns, `Except.error e` models the call raising an exception with
`str(e) = e`.  `VendorOp` records which call was issued, with its arguments,
so that theorems can speak about the sequence of vendor operations. -/

/-- The body of a `SaveChecklist` POST (dvi_client.py `save_checklist`). -/
structure SaveArgs where
  RONumber : String
  LaborID : String
  ItemID : String
  Condition : String
  Comments : String
  ROType : String
deriving DecidableEq, Repr

/-- `get_checklist_items` may return a JSON list or a dict with an `Items`
key (dvi_server_final.py lines 91-95); `dict none` models a dict without the
key, whose `get("Items", [])` defaults to the empty list. -/
inductive ItemsPayload
  | list (items : List ItemRec)
  | dict (Items : Option (List ItemRec))
deriving DecidableEq, Repr

/-- The item list extracted from an `ItemsPayload`
(dvi_server_final.py lines 92-95). -/
def ItemsPayload.itemList : ItemsPayload → List ItemRec
  | .list l => l
  | .dict o => o.getD []

/-- One vendor call, with its arguments. -/
inductive VendorOp
  | login
  | getRODetail (ro : String)
  | getCheckListItems (laborId : String)
  | saveMedia (path : String)
  | attachImage (ro laborId itemId blob : String)
  | saveChecklist (args : SaveArgs)
  | changeStatus (ro status : String)
deriving DecidableEq, Repr

/-- Outcomes of the vendor calls, one request's worth. -/
structure VendorEnv where
  login : Except String String
  getRODetail : String → Except String RODetail
  getCheckListItems : String → Except String ItemsPayload
  saveMedia : String → Except String String
  attachImage : String → String → String → String → Except String String
  saveChecklist : SaveArgs → Except String String
  changeStatus : String → String → Except String String

/-! ## `resolve_iso_labor_and_item` (dvi_server_final.py lines 54-115) -/

/-- `ISO_LABOR_ID` from config.py. -/
def ISO_LABOR_ID : Option String := some "e96a6a31-2400-47d4-84bd-155fccdb933b"

/-- `ISO_ITEM_ID` from config.py. -/
def ISO_ITEM_ID : Option String := some "7dfec4da-e129-4bff-860f-f3f1c440708b"

/-- The item-selection loop of `resolve_iso_labor_and_item`
(dvi_server_final.py lines 100-109): the first item whose `Title` contains
`"iso"` after lowercasing, otherwise the first item of the list. -/
def pick_iso_item (items : List ItemRec) : Option ItemRec :=
  match items.find? (fun it => strIn "iso" (lowerStr (it.Title.getD ""))) with
  | some it => some it
  | none => items.head?

/-- Embedding of `resolve_iso_labor_and_item` (dvi_server_final.py lines
54-115).  Returns the result together with the vendor calls issued, in
order.  The static-config path returns without vendor calls when both
overrides are truthy; otherwise the RO detail is fetched, the ISO labor
searched by description, the labor's checklist items fetched, and an item
selected by `pick_iso_item` — which yields `none` exactly when the item
list is empty, matching the `if not items: raise` guard of lines 97-98;
each `raise` of the Python code is an `Except.error` carrying the
exception's message. -/
def resolve_iso_labor_and_item (staticLabor staticItem : Option String)
    (env : VendorEnv) (ro : String) :
    Except String (String × String) × List VendorOp :=
  if truthyOpt staticLabor && truthyOpt staticItem then
    (.ok (staticLabor.getD "", staticItem.getD ""), [])
  else
    match env.getRODetail ro with
    | .error e => (.error e, [.getRODetail ro])
    | .ok detail =>
      match find_labor_id_by_description detail "ISO" with
      | none => (.error ("Could not find ISO labor for RO " ++ ro), [.getRODetail ro])
      | some laborId =>
        match env.getCheckListItems laborId with
        | .error e => (.error e, [.getRODetail ro, .getCheckListItems laborId])
        | .ok payload =>
          let ops := [VendorOp.getRODetail ro, VendorOp.getCheckListItems laborId]
          match pick_iso_item payload.itemList with
          | none =>
            (.error ("No checklist items returned for ISO labor " ++ laborId
                ++ " / RO " ++ ro), ops)
          | some isoItem =>
            match isoItem.ID with
            | none => (.error ("Could not determine ISO item ID for RO " ++ ro), ops)
            | some itemId =>
              if itemId = "" then
                (.error ("Could not determine ISO item ID for RO " ++ ro), ops)
              else (.ok (laborId, itemId), ops)

/-! ## `change_status` (dvi_status.py) -/

/-- An HTTP response from the vendor, as seen by the `requests` library. -/
structure HttpResp where
  status : Nat
  reason : String
  url : String
  text : String
deriving DecidableEq, Repr

/-- Modelled from the `requests` library (not repository code):
`Response.raise_for_status()` raises an `HTTPError` whose message is
`"{status} Client Error: {reason} for url: {url}"` for 4xx responses and
`"{status} Server Error: {reason} for url: {url}"` for 5xx responses, and
returns normally otherwise.  The message contains the HTTP status code and
reason phrase but not the response body. -/
def httpErrorMsg (r : HttpResp) : String :=
  if r.status < 500 then
    toString r.status ++ " Client Error: " ++ r.reason ++ " for url: " ++ r.url
  else
    toString r.status ++ " Server Error: " ++ r.reason ++ " for url: " ++ r.url

/-- Modelled from the `requests` library (not repository code): the raise
condition of `Response.raise_for_status()` — an `HTTPError` carrying
`httpErrorMsg` is raised for 4xx and 5xx responses, and nothing happens
otherwise. -/
def raise_for_status (r : HttpResp) : Except String Unit :=
  if 400 ≤ r.status ∧ r.status < 600 then .error (httpErrorMsg r) else .ok ()

/-- The body of a `ChangeStatus` POST (dvi_status.py lines 25-29). -/
structure StatusBody where
  Status : String
  RoType : String
  RONumber : String
deriving DecidableEq, Repr

/-- Embedding of `change_status` (dvi_status.py): POSTs
`{Status, Type, RONumber}`, calls `raise_for_status`, and returns the raw
response text.  The vendor is a function from the posted body to the HTTP
response; the bearer token only enters the request headers. -/
def change_status (vendor : StatusBody → HttpResp) (token ro_number status ro_type : String) :
    Except String String :=
  let resp := vendor { Status := status, RoType := ro_type, RONumber := ro_number }
  match raise_for_status resp with
  | .error e => .error e
  | .ok _ => .ok resp.text

/-! ## `save_media` (JUNK/dvi_media.py) -/

/-- Python truthiness of optional raw bytes: `None` and `b""` are falsy. -/
def truthyBytes : Option (List Nat) → Bool
  | none => false
  | some bs => bs ≠ []

/-- Is this character a double quote? -/
def isQuote (c : Char) : Bool := c == '"'

/-- Python `s.strip` with a double-quote argument: remove all leading and
trailing double-quote characters. -/
def stripQuotes (s : String) : String :=
  String.mk (((s.toList.dropWhile isQuote).reverse.dropWhile isQuote).reverse)

/-- Does `s` end with the given suffix? -/
def endsWithB (suffix s : String) : Bool :=
  listPreB suffix.toList.reverse s.toList.reverse

/-- Embedding of `save_media` (JUNK/dvi_media.py): requires one of
`image_path`/`image_bytes` to be truthy, generates
`blob_name = uuid4().hex + ".jpg"`, uploads, and returns the vendor's parsed
JSON reply with surrounding quotes stripped.  The uuid hex is the parameter
`hexPart`; `vendorReply` maps the uploaded blob name to the reply string
produced by `resp.json()` (`Except.error` models a raised exception). -/
def save_media (image_path : Option String) (image_bytes : Option (List Nat))
    (hexPart : String) (vendorReply : String → Except String String) :
    Except String String :=
  if !truthyOpt image_path && !truthyBytes image_bytes then
    .error "Must provide either image_path or image_bytes"
  else
    let blob_name := hexPart ++ ".jpg"
    match vendorReply blob_name with
    | .error e => .error e
    | .ok r => .ok (stripQuotes r)

/-! ## The final server's `/dvi/iso_inspection` handler
(dvi_server_final.py lines 163-293)

The handler is embedded as a total function from the parsed request, the
vendor environment, a uuid supply `u : Nat → String` (uuid call `k` yields
hex string `u k`), and a disk-existence oracle for caller-supplied paths, to
an `IsoResult` capturing the HTTP status, the response fields the claims
speak about, the ordered vendor-call trace, and the temp files created,
staged into `image_paths`, and removed by the `finally` block.  Totality of
the function mirrors the handler's catch-all `except`: no exception escapes
to Flask. -/

/-- The base64 alphabet (including padding) as scanned by the decoder. -/
def isB64Char (c : Char) : Bool :=
  ('A' ≤ c && c ≤ 'Z') || ('a' ≤ c && c ≤ 'z') || ('0' ≤ c && c ≤ '9')
  || c == '+' || c == '/' || c == '='

/-- Modelled from the Python standard library (not repository code):
`base64.b64decode` with default `validate=False` discards characters outside
the base64 alphabet and raises `binascii.Error` when the remaining character
count is not a multiple of four (e.g. `b64decode("abc")` raises
`Incorrect padding`).  Only success/failure of the decode matters to the
handler, so only that is modelled. -/
def b64decode_ok (s : String) : Bool :=
  (s.toList.filter isB64Char).length % 4 == 0

/-- One multipart file field; filename `""` models a falsy or empty upload,
which the handler skips. -/
structure MPFile where
  filename : String
deriving DecidableEq, Repr

/-- One entry of the JSON `images_base64` list: either a bare base64 string
or an object with optional `filename` and `data` keys (`none` = key
absent). -/
inductive B64Entry
  | str (s : String)
  | obj (filename : Option String) (data : Option String)
deriving DecidableEq, Repr

/-- An incoming `/dvi/iso_inspection` request after Flask parsing:
`multipart` selects the form branch, in which `files` is read and the
JSON-only list fields (`image_paths`, `images_base64`) are form strings that
fail the handler's `isinstance(…, list)` checks and are ignored.  The
`title` field is only echoed into the response and is not modelled. -/
structure IsoReq where
  multipart : Bool
  files : List MPFile
  ro_number : Option String
  comments : Option String
  condition : Option String
  image_paths : Option (List String)
  images_base64 : Option (List B64Entry)
  move_to_start : Option FlagVal
  move_to_complete : Option FlagVal
deriving DecidableEq, Repr

/-- Temp-file staging of multipart uploads (dvi_server_final.py lines
184-189): each file with a truthy filename is saved to
`./tmp_{uuid4().hex}.jpg`.  Returns the created paths in order and the next
unused uuid index. -/
def stageFiles : List MPFile → (Nat → String) → Nat → List String × Nat
  | [], _, n => ([], n)
  | f :: fs, u, n =>
    if f.filename = "" then stageFiles fs u n
    else
      let p := "./tmp_" ++ u n ++ ".jpg"
      let (rest, n1) := stageFiles fs u (n + 1)
      (p :: rest, n1)

/-- Temp-file staging of base64 images (dvi_server_final.py lines 197-214).
Returns `(created, appended, next)`: every file the loop opened, the subset
whose decode succeeded and was appended to `image_paths`, and the next
unused uuid index.  A bare string consumes one uuid for its generated
filename; an object consumes one for the eagerly evaluated
`img.get("filename", f"img_{uuid4().hex}.jpg")` default; a truthy payload
consumes another for the temp path.  A failing decode leaves the opened
file on disk but not in `image_paths` (the `open` at line 210 creates the
file before `b64decode` raises at line 211, and the per-entry `except` only
logs). -/
def stageB64 : List B64Entry → (Nat → String) → Nat → List String × List String × Nat
  | [], _, n => ([], [], n)
  | e :: es, u, n =>
    let fname :=
      match e with
      | .str _ => "img_" ++ u n ++ ".jpg"
      | .obj fn _ => fn.getD ("img_" ++ u n ++ ".jpg")
    let data :=
      match e with
      | .str s => some s
      | .obj _ dt => dt
    match data with
    | none => stageB64 es u (n + 1)
    | some s =>
      if s = "" then stageB64 es u (n + 1)
      else
        let p := "./tmp_" ++ u (n + 1) ++ "_" ++ fname
        let (cr, ap, n2) := stageB64 es u (n + 2)
        if b64decode_ok s then (p :: cr, p :: ap, n2) else (p :: cr, ap, n2)

/-- Model of `pathlib.Path(p).name`: the part after the last `/`. -/
def baseName (p : String) : String :=
  String.mk ((p.toList.reverse.takeWhile (fun c => c != '/')).reverse)

/-- The `finally` cleanup (dvi_server_final.py lines 285-293): delete every
path of the cleanup snapshot that exists as a file and whose basename starts
with `tmp_`.  Files created by this handler exist; existence of
caller-supplied paths is the oracle `diskExists`. -/
def cleanupDeleted (cleanup created : List String) (diskExists : String → Bool) :
    List String :=
  cleanup.filter (fun p =>
    (created.contains p || diskExists p)
    && listPreB "tmp_".toList (baseName p).toList)

/-- The observable outcome of one `/dvi/iso_inspection` request: HTTP status
and the response fields the claims speak about, plus the vendor-call trace
and the temp-file bookkeeping (`created` = files opened by the handler,
`staged` = the created files that entered `image_paths`, `deleted` = files
the `finally` block removed). -/
structure IsoResult where
  httpStatus : Nat
  ok : Bool
  error : Option String
  blobs : List String
  upload_errors : List String
  trace : List VendorOp
  created : List String
  staged : List String
  deleted : List String
deriving DecidableEq, Repr

/-- One iteration of the image upload/attach loop (dvi_server_final.py lines
234-248): upload the file, attach the blob; on success collect the blob, on
either failure collect `"Failed to upload/attach {p}: {e}"` and continue. -/
def imageStep (env : VendorEnv) (ro laborId itemId : String)
    (acc : List String × List String × List VendorOp) (p : String) :
    List String × List String × List VendorOp :=
  let (bl, er, tr) := acc
  match env.saveMedia p with
  | .error e =>
    (bl, er ++ ["Failed to upload/attach " ++ p ++ ": " ++ e], tr ++ [.saveMedia p])
  | .ok blob =>
    match env.attachImage ro laborId itemId blob with
    | .error e =>
      (bl, er ++ ["Failed to upload/attach " ++ p ++ ": " ++ e],
        tr ++ [.saveMedia p, .attachImage ro laborId itemId blob])
    | .ok _ =>
      (bl ++ [blob], er, tr ++ [.saveMedia p, .attachImage ro laborId itemId blob])

/-- Embedding of the final server's `/dvi/iso_inspection` handler
(dvi_server_final.py lines 163-293): falsy `ro_number` gives an immediate
400 (before any staging); then images are staged, flags parsed, and inside
the `try` block the handler logs in, resolves the ISO labor/item, uploads
and attaches each image (per-image failures only collected), saves the
checklist text with the defaulted condition, and performs the optional
status moves 3 and 4; any raise inside the `try` yields a 500 carrying
`str(e)`, and the `finally` cleanup always runs. -/
def dvi_iso_inspection (staticLabor staticItem : Option String) (env : VendorEnv)
    (u : Nat → String) (diskExists : String → Bool) (req : IsoReq) : IsoResult :=
  if !truthyOpt req.ro_number then
    { httpStatus := 400, ok := false,
      error := some "Missing required field \x27ro_number\x27",
      blobs := [], upload_errors := [], trace := [],
      created := [], staged := [], deleted := [] }
  else
    let ro := req.ro_number.getD ""
    let comments := req.comments.getD ""
    let files := if req.multipart then req.files else []
    let (mpCreated, n1) := stageFiles files u 0
    let jpaths := if req.multipart then [] else req.image_paths.getD []
    let b64 := if req.multipart then [] else req.images_base64.getD []
    let (bCreated, bAppended, _) := stageB64 b64 u n1
    let image_paths := mpCreated ++ jpaths ++ bAppended
    let created := mpCreated ++ bCreated
    let staged := mpCreated ++ bAppended
    let deleted := cleanupDeleted image_paths created diskExists
    let move_to_start := finalFlagTrue req.move_to_start
    let move_to_complete := finalFlagTrue req.move_to_complete
    let fail := fun (e : String) (tr : List VendorOp) (bl er : List String) =>
      ({ httpStatus := 500, ok := false, error := some e, blobs := bl,
         upload_errors := er, trace := tr, created := created, staged := staged,
         deleted := deleted } : IsoResult)
    match env.login with
    | .error e => fail e [.login] [] []
    | .ok _ =>
      match resolve_iso_labor_and_item staticLabor staticItem env ro with
      | (.error e, rops) => fail e (VendorOp.login :: rops) [] []
      | (.ok (laborId, itemId), rops) =>
        let tr0 := VendorOp.login :: rops
        let (blobs, uperrs, tr1) :=
          image_paths.foldl (imageStep env ro laborId itemId) ([], [], tr0)
        let cond0 := req.condition.getD ""
        let condition :=
          if cond0 ≠ "" then cond0
          else if comments ≠ "" then "Failed Inspection" else ""
        let args : SaveArgs :=
          { RONumber := ro, LaborID := laborId, ItemID := itemId,
            Condition := condition, Comments := comments, ROType := "R" }
        match env.saveChecklist args with
        | .error e => fail e (tr1 ++ [.saveChecklist args]) blobs uperrs
        | .ok _ =>
          let tr2 := tr1 ++ [.saveChecklist args]
          let finish := fun (tr : List VendorOp) =>
            if move_to_complete then
              match env.changeStatus ro "4" with
              | .error e => fail e (tr ++ [.changeStatus ro "4"]) blobs uperrs
              | .ok _ =>
                ({ httpStatus := 200, ok := true, error := none, blobs := blobs,
                   upload_errors := uperrs, trace := tr ++ [.changeStatus ro "4"],
                   created := created, staged := staged,
                   deleted := deleted } : IsoResult)
            else
              ({ httpStatus := 200, ok := true, error := none, blobs := blobs,
                 upload_errors := uperrs, trace := tr, created := created,
                 staged := staged, deleted := deleted } : IsoResult)
          if move_to_start then
            match env.changeStatus ro "3" with
            | .error e => fail e (tr2 ++ [.changeStatus ro "3"]) blobs uperrs
            | .ok _ => finish (tr2 ++ [.changeStatus ro "3"])
          else finish tr2

/-! ## The status-only endpoints used by the claims -/

/-- A simple status-endpoint response: HTTP status plus the
`ok`/`error`/`raw` fields. -/
structure SimpleResult where
  httpStatus : Nat
  ok : Bool
  error : Option String
  raw : Option String
deriving DecidableEq, Repr

/-- Embedding of the final server's `/dvi/start` handler
(dvi_server_final.py lines 131-145): an explicit falsy check on `ro_number`
gives a 400; `dvi_login` / `change_status` failures are caught and reported
as a 500 carrying `str(e)`. -/
def dvi_start_final (envLogin : Except String String)
    (envStatus : String → String → Except String String)
    (ro_number : Option String) : SimpleResult :=
  if !truthyOpt ro_number then
    { httpStatus := 400, ok := false,
      error := some "Missing required field \x27ro_number\x27", raw := none }
  else
    match envLogin with
    | .error e => { httpStatus := 500, ok := false, error := some e, raw := none }
    | .ok _ =>
      match envStatus (ro_number.getD "") "3" with
      | .error e => { httpStatus := 500, ok := false, error := some e, raw := none }
      | .ok raw => { httpStatus := 200, ok := true, error := none, raw := some raw }

/-- Embedding of the bridge's `/dvi/start` handler (dvi_bridge.py lines
260-284): everything runs inside the `try`; `data["ro_number"]` raises
`KeyError` when the field is absent, which the catch-all converts into a
500 whose error string is `str(KeyError("ro_number"))`, i.e. the quoted key
name; there is no explicit 400 check. -/
def dvi_start_bridge (envLogin : Except String String)
    (envStatus : String → String → Except String String)
    (ro_number : Option String) : SimpleResult :=
  match ro_number with
  | none =>
    { httpStatus := 500, ok := false, error := some "\x27ro_number\x27", raw := none }
  | some ro =>
    match envLogin with
    | .error e => { httpStatus := 500, ok := false, error := some e, raw := none }
    | .ok _ =>
      match envStatus ro "3" with
      | .error e => { httpStatus := 500, ok := false, error := some e, raw := none }
      | .ok raw => { httpStatus := 200, ok := true, error := none, raw := some raw }

/-- Embedding of the final server's `/health` (dvi_server_final.py lines
122-124): unconditionally `ok:true`. -/
def health_final : SimpleResult :=
  { httpStatus := 200, ok := true, error := none,
    raw := some "DVI bridge server running" }

/-- Embedding of the final server's `/dvi/iso_complete` (dvi_server_final.py
lines 327-340): explicit falsy check, then login and status change to
`"4"`, failures caught into a 500 carrying `str(e)`. -/
def dvi_iso_complete_final (envLogin : Except String String)
    (envStatus : String → String → Except String String)
    (ro_number : Option String) : SimpleResult :=
  if !truthyOpt ro_number then
    { httpStatus := 400, ok := false, error := some "Missing ro_number", raw := none }
  else
    match envLogin with
    | .error e => { httpStatus := 500, ok := false, error := some e, raw := none }
    | .ok _ =>
      match envStatus (ro_number.getD "") "4" with
      | .error e => { httpStatus := 500, ok := false, error := some e, raw := none }
      | .ok raw => { httpStatus := 200, ok := true, error := none, raw := some raw }

/-- Embedding of the final server's `/dvi/pma_complete` (dvi_server_final.py
lines 343-357): like `/dvi/iso_complete` with status `"5"`. -/
def dvi_pma_complete_final (envLogin : Except String String)
    (envStatus : String → String → Except String String)
    (ro_number : Option String) : SimpleResult :=
  if !truthyOpt ro_number then
    { httpStatus := 400, ok := false, error := some "Missing ro_number", raw := none }
  else
    match envLogin with
    | .error e => { httpStatus := 500, ok := false, error := some e, raw := none }
    | .ok _ =>
      match envStatus (ro_number.getD "") "5" with
      | .error e => { httpStatus := 500, ok := false, error := some e, raw := none }
      | .ok raw => { httpStatus := 200, ok := true, error := none, raw := some raw }

/-- Embedding of the final server's `/dvi/qc_complete` (dvi_server_final.py
lines 360-374): like `/dvi/iso_complete` with status `"8"`. -/
def dvi_qc_complete_final (envLogin : Except String String)
    (envStatus : String → String → Except String String)
    (ro_number : Option String) : SimpleResult :=
  if !truthyOpt ro_number then
    { httpStatus := 400, ok := false, error := some "Missing ro_number", raw := none }
  else
    match envLogin with
    | .error e => { httpStatus := 500, ok := false, error := some e, raw := none }
    | .ok _ =>
      match envStatus (ro_number.getD "") "8" with
      | .error e => { httpStatus := 500, ok := false, error := some e, raw := none }
      | .ok raw => { httpStatus := 200, ok := true, error := none, raw := some raw }

/-- Embedding of the final server's `/dvi/upload_image` (dvi_server_final.py
lines 303-319): 400 for a missing `"file"` part, 400 for a falsy file or
filename, otherwise the file is staged to `./tmp_{uuid4().hex}.jpg` and the
temp path returned. -/
def dvi_upload_image_final (u : Nat → String) (file : Option MPFile) : SimpleResult :=
  match file with
  | none => { httpStatus := 400, ok := false, error := some "No file part", raw := none }
  | some f =>
    if f.filename = "" then
      { httpStatus := 400, ok := false, error := some "Empty filename", raw := none }
    else
      { httpStatus := 200, ok := true, error := none,
        raw := some ("./tmp_" ++ u 0 ++ ".jpg") }

/-- Embedding of the bridge's `/dvi/iso_complete` (dvi_bridge.py lines
287-311): `data["ro_number"]` raises `KeyError` on a missing field —
answered 500 with the `KeyError` text, no 400 check — then login and status
change to `"4"`. -/
def dvi_iso_complete_bridge (envLogin : Except String String)
    (envStatus : String → String → Except String String)
    (ro_number : Option String) : SimpleResult :=
  match ro_number with
  | none =>
    { httpStatus := 500, ok := false, error := some "\x27ro_number\x27", raw := none }
  | some ro =>
    match envLogin with
    | .error e => { httpStatus := 500, ok := false, error := some e, raw := none }
    | .ok _ =>
      match envStatus ro "4" with
      | .error e => { httpStatus := 500, ok := false, error := some e, raw := none }
      | .ok raw => { httpStatus := 200, ok := true, error := none, raw := some raw }

/-- Embedding of the bridge's `/dvi/pma_complete` (dvi_bridge.py lines
314-338): like the bridge `/dvi/iso_complete` with status `"5"`. -/
def dvi_pma_complete_bridge (envLogin : Except String String)
    (envStatus : String → String → Except String String)
    (ro_number : Option String) : SimpleResult :=
  match ro_number with
  | none =>
    { httpStatus := 500, ok := false, error := some "\x27ro_number\x27", raw := none }
  | some ro =>
    match envLogin with
    | .error e => { httpStatus := 500, ok := false, error := some e, raw := none }
    | .ok _ =>
      match envStatus ro "5" with
      | .error e => { httpStatus := 500, ok := false, error := some e, raw := none }
      | .ok raw => { httpStatus := 200, ok := true, error := none, raw := some raw }

/-- Embedding of the bridge's `/dvi/qc_complete` (dvi_bridge.py lines
547-578): unlike the bridge status endpoints above, this one uses
`data.get` plus an explicit falsy check, so a missing `ro_number` is a
400. -/
def dvi_qc_complete_bridge (envLogin : Except String String)
    (envStatus : String → String → Except String String)
    (ro_number : Option String) : SimpleResult :=
  if !truthyOpt ro_number then
    { httpStatus := 400, ok := false, error := some "Missing ro_number", raw := none }
  else
    match envLogin with
    | .error e => { httpStatus := 500, ok := false, error := some e, raw := none }
    | .ok _ =>
      match envStatus (ro_number.getD "") "8" with
      | .error e => { httpStatus := 500, ok := false, error := some e, raw := none }
      | .ok raw => { httpStatus := 200, ok := true, error := none, raw := some raw }

/-- The fixed fallback ISO checklist id of dvi_bridge.py (line 27). -/
def ISO_CHECKLIST_ID : String := "7dfec4da-e129-4bff-860f-f3f1c440708b"

/-- Embedding of the bridge's `/dvi/prime_iso` (dvi_bridge.py lines
581-609): `data["ro_number"]` raises `KeyError` on a missing field, then
login and `prime_iso_comment_field` with the fixed checklist id;
`envPrime` maps (RO number, checklist id) to the call's outcome. -/
def dvi_prime_iso_bridge (envLogin : Except String String)
    (envPrime : String → String → Except String String)
    (ro_number : Option String) : SimpleResult :=
  match ro_number with
  | none =>
    { httpStatus := 500, ok := false, error := some "\x27ro_number\x27", raw := none }
  | some ro =>
    match envLogin with
    | .error e => { httpStatus := 500, ok := false, error := some e, raw := none }
    | .ok _ =>
      match envPrime ro ISO_CHECKLIST_ID with
      | .error e => { httpStatus := 500, ok := false, error := some e, raw := none }
      | .ok _ =>
        { httpStatus := 200, ok := true, error := none,
          raw := some "ISO comment field primed and ready." }

/-- Embedding of the bridge's `/dvi/pma_technician_notes` (dvi_bridge.py
lines 504-544): explicit 400 when any of `ro_number`, `labor_id`, `notes`
is falsy, then login and `save_checklist` with the fixed technician-notes
item; `envSave` maps (RO number, labor id, notes) to the call's outcome. -/
def dvi_pma_technician_notes_bridge (envLogin : Except String String)
    (envSave : String → String → String → Except String String)
    (ro_number labor_id notes : Option String) : SimpleResult :=
  if !truthyOpt ro_number || !truthyOpt labor_id || !truthyOpt notes then
    { httpStatus := 400, ok := false, error := some "Missing required fields", raw := none }
  else
    match envLogin with
    | .error e => { httpStatus := 500, ok := false, error := some e, raw := none }
    | .ok _ =>
      match envSave (ro_number.getD "") (labor_id.getD "") (notes.getD "") with
      | .error e => { httpStatus := 500, ok := false, error := some e, raw := none }
      | .ok res => { httpStatus := 200, ok := true, error := none, raw := some res }

/-- The checklist page fetched by the bridge's `/dvi/get_rowid`: its HTTP
status and, when the `hOriginalROWID` hidden input is present, that tag's
optional `value` attribute. -/
structure RowidPage where
  status : Nat
  tag : Option (Option String)
deriving DecidableEq, Repr

/-- Embedding of the bridge's `/dvi/get_rowid` (dvi_bridge.py lines
620-665): explicit 400 for a missing `ro_number`, 500 when the page is not
HTTP 200 or lacks the `hOriginalROWID` input, otherwise `ok:true` with the
tag's `value` attribute (which the code does not check and may be null). -/
def dvi_get_rowid_bridge (envLogin : Except String String)
    (envPage : String → RowidPage) (ro_number : Option String) : SimpleResult :=
  if !truthyOpt ro_number then
    { httpStatus := 400, ok := false, error := some "Missing ro_number", raw := none }
  else
    match envLogin with
    | .error e => { httpStatus := 500, ok := false, error := some e, raw := none }
    | .ok _ =>
      let page := envPage (ro_number.getD "")
      if page.status ≠ 200 then
        { httpStatus := 500, ok := false,
          error := some ("Checklist page returned HTTP " ++ toString page.status),
          raw := none }
      else
        match page.tag with
        | none =>
          { httpStatus := 500, ok := false,
            error := some "RowID not found in returned HTML", raw := none }
        | some v => { httpStatus := 200, ok := true, error := none, raw := v }

/-- Embedding of the bridge's `/dvi/upload_image` (dvi_bridge.py lines
475-501): 400 for a missing `"file"` part or an empty filename, otherwise
the file is staged to `/tmp/{uuid4().hex}.jpg` and the temp path
returned. -/
def dvi_upload_image_bridge (u : Nat → String) (file : Option MPFile) : SimpleResult :=
  match file with
  | none => { httpStatus := 400, ok := false, error := some "No file part", raw := none }
  | some f =>
    if f.filename = "" then
      { httpStatus := 400, ok := false, error := some "Empty filename", raw := none }
    else
      { httpStatus := 200, ok := true, error := none,
        raw := some ("/tmp/" ++ u 0 ++ ".jpg") }

/-! ## The bridge's `/dvi/iso_inspection` handler (dvi_bridge.py lines 344-469) -/

/-- Python truthiness of a JSON scalar, as in
`bool(data.get("move_to_start", True))` (dvi_bridge.py lines 378-379). -/
def pyTruthy : FlagVal → Bool
  | .s v => v ≠ ""
  | .b b => b
  | .i n => n ≠ 0

/-- Temp-file staging of the bridge's multipart uploads (dvi_bridge.py
lines 363-371): each file with a truthy filename is saved to
`/tmp/{uuid4().hex}.jpg`. -/
def stageFilesTmp : List MPFile → (Nat → String) → Nat → List String × Nat
  | [], _, n => ([], n)
  | f :: fs, u, n =>
    if f.filename = "" then stageFilesTmp fs u n
    else
      let p := "/tmp/" ++ u n ++ ".jpg"
      let (rest, n1) := stageFilesTmp fs u (n + 1)
      (p :: rest, n1)

/-- Outcomes of the vendor and scraping calls the bridge's ISO handler
makes: login, the rowid scrape, status changes, the webform comment post
(rowid, comment, condition), media upload, and the checklist-image attach
(RO, labor id, checklist/item id, blob). -/
structure BridgeEnv where
  login : Except String String
  getRowid : String → Except String String
  changeStatus : String → String → Except String String
  webformComment : String → String → String → Except String String
  saveMedia : String → Except String String
  attachImageCloud : String → String → String → String → Except String String

/-- An incoming `/dvi/iso_inspection` request to the bridge after Flask
parsing: multipart (form strings, `files` = the `images` parts) or JSON. -/
structure BridgeIsoReq where
  multipart : Bool
  files : List MPFile
  ro_number : Option String
  comments : Option String
  rowid : Option String
  image_paths : Option (List String)
  move_to_start : Option FlagVal
  move_to_complete : Option FlagVal
deriving DecidableEq, Repr

/-- The observable outcome of one bridge `/dvi/iso_inspection` request:
HTTP status, `ok`/`error`, the collected blobs and the rowid used. -/
structure BridgeIsoResult where
  httpStatus : Nat
  ok : Bool
  error : Option String
  blobs : List String
  rowid : Option String
deriving DecidableEq, Repr

/-- One bridge image-loop iteration (dvi_bridge.py lines 417-434): falsy
paths are skipped; upload then attach to the fixed ISO checklist id with an
empty labor id; a failure of either step is printed and otherwise ignored —
the bridge collects no `upload_errors`. -/
def bridgeImageStep (env : BridgeEnv) (ro : String) (blobs : List String)
    (p : String) : List String :=
  if p = "" then blobs
  else
    match env.saveMedia p with
    | .error _ => blobs
    | .ok blob =>
      match env.attachImageCloud ro "" ISO_CHECKLIST_ID blob with
      | .error _ => blobs
      | .ok _ => blobs ++ [blob]

/-- Embedding of the bridge's `/dvi/iso_inspection` handler (dvi_bridge.py
lines 344-469): parse (multipart staging to `/tmp` with `_form_bool` flags,
or JSON with Python-truthiness flags defaulting to `True`), explicit 400
for a falsy `ro_number` (inside the `try`), login, rowid auto-detection
when the supplied rowid is falsy, optional status 3, webform comment save
with condition `"Failed Inspection"` on non-empty comments, the per-image
loop with failures silently ignored, optional status 4; any raise is
caught into a 500 carrying `str(e)`. -/
def dvi_iso_inspection_bridge (env : BridgeEnv) (u : Nat → String)
    (req : BridgeIsoReq) : BridgeIsoResult :=
  let comments := req.comments.getD ""
  let move_to_start :=
    if req.multipart then form_bool req.move_to_start true
    else
      match req.move_to_start with
      | none => true
      | some v => pyTruthy v
  let move_to_complete :=
    if req.multipart then form_bool req.move_to_complete true
    else
      match req.move_to_complete with
      | none => true
      | some v => pyTruthy v
  let image_paths :=
    if req.multipart then (stageFilesTmp req.files u 0).1
    else req.image_paths.getD []
  if !truthyOpt req.ro_number then
    { httpStatus := 400, ok := false, error := some "Missing ro_number",
      blobs := [], rowid := none }
  else
    let ro := req.ro_number.getD ""
    let fail := fun (e : String) =>
      ({ httpStatus := 500, ok := false, error := some e, blobs := [],
         rowid := none } : BridgeIsoResult)
    match env.login with
    | .error e => fail e
    | .ok _ =>
      let rowidRes : Except String String :=
        if truthyOpt req.rowid then .ok (req.rowid.getD "") else env.getRowid ro
      match rowidRes with
      | .error e => fail e
      | .ok rowid =>
        let step1 : Except String String :=
          if move_to_start then env.changeStatus ro "3" else .ok ""
        match step1 with
        | .error e => fail e
        | .ok _ =>
          match env.webformComment rowid comments
              (if comments ≠ "" then "Failed Inspection" else "") with
          | .error e => fail e
          | .ok _ =>
            let blobs := image_paths.foldl (bridgeImageStep env ro) []
            if move_to_complete then
              match env.changeStatus ro "4" with
              | .error e => fail e
              | .ok _ =>
                { httpStatus := 200, ok := true, error := none,
                  blobs := blobs, rowid := some rowid }
            else
              { httpStatus := 200, ok := true, error := none,
                blobs := blobs, rowid := some rowid }

/-! ## Generic lemmas about the string primitives -/

theorem listPreB_append_self (l r : List Char) : listPreB l (l ++ r) = true := by
  induction l with
  | nil => rfl
  | cons a as ih => simp [listPreB, ih]

theorem listInfB_of_pre {n h : List Char} (hp : listPreB n h = true) :
    listInfB n h = true := by
  cases h with
  | nil => simpa [listInfB] using hp
  | cons c cs => simp [listInfB, hp]

theorem listInfB_cons {n : List Char} {c : Char} {cs : List Char}
    (hi : listInfB n cs = true) : listInfB n (c :: cs) = true := by
  simp [listInfB, hi]

theorem listInfB_append_left {n h : List Char} (pre : List Char)
    (hi : listInfB n h = true) : listInfB n (pre ++ h) = true := by
  induction pre with
  | nil => simpa using hi
  | cons c cs ih => simpa using listInfB_cons ih

/-- A string occurs in any string of which it is an inner segment. -/
theorem strIn_of_segment (p a b : String) : strIn p (a ++ p ++ b) = true := by
  show listInfB p.toList (a ++ p ++ b).data = true
  rw [String.data_append, String.data_append, List.append_assoc]
  exact listInfB_append_left a.data
    (listInfB_of_pre (listPreB_append_self p.data b.data))

/-! ## Claim C4: the oil-service / wheel-work detectors -/

/-- The property claimed of the detectors: some keyword of the fixed list
occurs (after lowercasing) in the `Requests` text, in some labor
`Description`, or in some checklist `Name`. -/
def claimKeywordMatch (d : RODetail) (ks : List String) : Prop :=
  (∃ k ∈ ks, strIn k (lowerStr (d.Requests.getD "")) = true)
  ∨ (∃ l ∈ d.LaborList, ∃ k ∈ ks, strIn k (lowerStr (l.Description.getD "")) = true)
  ∨ (∃ c ∈ d.CheckLists, ∃ k ∈ ks, strIn k (lowerStr (c.Name.getD "")) = true)

/-- What the detectors actually test: the keyword list applies to the
`Requests` text and the labor descriptions, while the checklist names are
only compared against one fixed signoff-checklist name. -/
def detectorSpec (d : RODetail) (ks : List String) (signoff : String) : Prop :=
  (∃ k ∈ ks, strIn k (lowerStr (d.Requests.getD "")) = true)
  ∨ (∃ l ∈ d.LaborList, ∃ k ∈ ks, strIn k (lowerStr (l.Description.getD "")) = true)
  ∨ (∃ c ∈ d.CheckLists, strIn signoff (lowerStr (c.Name.getD "")) = true)

/-- An RO detail whose only text is the checklist name
`"Wheel Torque Signoff"`, which contains no keyword of the wheel list. -/
def wheelSignoffDetail : RODetail :=
  { Requests := none, LaborList := [],
    CheckLists := [{ Name := some "Wheel Torque Signoff" }] }

/-- C4 counterexample: `ro_has_wheel_work` returns `true` on an RO whose
only text is the checklist name `"Wheel Torque Signoff"`, although no
keyword of the wheel-work list occurs in any of the three text sources, so
the claimed "true iff a keyword appears" equivalence fails. -/
theorem c4_detector_counterexample :
    ro_has_wheel_work wheelSignoffDetail = true
      ∧ ¬ claimKeywordMatch wheelSignoffDetail wheel_keywords := by
  refine ⟨by decide, ?_⟩
  simp only [claimKeywordMatch]
  decide

/-- C4 (amended): each detector returns `true` iff a keyword of its fixed
list occurs case-insensitively in the `Requests` text or in some labor
`Description`, or its fixed signoff-checklist name (`"oil change signoff"`
resp. `"wheel torque signoff"`) occurs in some checklist `Name`. -/
theorem c4_detectors_amended (d : RODetail) :
    (ro_has_oil_service d = true ↔ detectorSpec d oil_keywords "oil change signoff")
      ∧ (ro_has_wheel_work d = true
          ↔ detectorSpec d wheel_keywords "wheel torque signoff") := by
  constructor <;>
    simp [ro_has_oil_service, ro_has_wheel_work, textHasAny, detectorSpec,
      List.any_eq_true, Bool.or_eq_true, or_assoc]

/-- Witness for C4 at a concrete RO detail: an oil-change labor makes the
oil detector fire, and the equivalence evaluates truthfully there. -/
theorem c4_detectors_amended_witness :
    (ro_has_oil_service
        { Requests := some "Oil change and rotate", LaborList := [],
          CheckLists := [] } = true
      ↔ detectorSpec
          { Requests := some "Oil change and rotate", LaborList := [],
            CheckLists := [] } oil_keywords "oil change signoff") := by
  exact (c4_detectors_amended
    { Requests := some "Oil change and rotate", LaborList := [],
      CheckLists := [] }).1

/-! ## Claim C10: flag parsing of the two ISO-inspection variants -/

/-- C10: the final server treats a present flag as true exactly when its
Python string form lowercases to `"true"` and defaults an absent flag to
true, so `"1"`, `"yes"`, `"on"` (and `1`) all disable the step there, while
the bridge's `_form_bool` accepts `"1"`, `"true"`, `"yes"`, `"y"`, `"on"`
(after strip/lower) as true — the two variants parse the same flag
differently. -/
theorem c10_flag_divergence :
    (∀ v : FlagVal, finalFlagTrue (some v) = true ↔ lowerStr (pyStr v) = "true")
    ∧ finalFlagTrue none = true
    ∧ (∀ (v : FlagVal) (dflt : Bool), form_bool (some v) dflt = true
        ↔ lowerStr (pyStrip (pyStr v)) ∈ ["1", "true", "yes", "y", "on"])
    ∧ (∀ dflt : Bool, form_bool none dflt = dflt)
    ∧ finalFlagTrue (some (.s "1")) = false
    ∧ finalFlagTrue (some (.s "yes")) = false
    ∧ finalFlagTrue (some (.s "on")) = false
    ∧ finalFlagTrue (some (.i 1)) = false
    ∧ finalFlagTrue (some (.s "TRUE")) = true
    ∧ form_bool (some (.s "1")) true = true
    ∧ form_bool (some (.s "yes")) true = true
    ∧ form_bool (some (.s "on")) true = true
    ∧ finalFlagTrue (some (.s "1")) ≠ form_bool (some (.s "1")) true := by
  refine ⟨?_, by decide, ?_, ?_, by decide, by decide, by decide, by decide,
    by decide, by decide, by decide, by decide, by decide⟩
  · intro v
    simp [finalFlagTrue]
  · intro v dflt
    simp [form_bool, List.contains, List.elem_iff]
  · intro dflt
    rfl

/-! ## Decidable equality for vendor-call outcomes -/

instance {e a : Type} [DecidableEq e] [DecidableEq a] : DecidableEq (Except e a)
  | .error x, .error y =>
    if h : x = y then .isTrue (congrArg Except.error h)
    else .isFalse (fun hh => h (Except.error.inj hh))
  | .error _, .ok _ => .isFalse (fun hh => Except.noConfusion hh)
  | .ok _, .error _ => .isFalse (fun hh => Except.noConfusion hh)
  | .ok x, .ok y =>
    if h : x = y then .isTrue (congrArg Except.ok h)
    else .isFalse (fun hh => h (Except.ok.inj hh))

/-- A string occurs in any string it is a prefix of. -/
theorem strIn_prefix_append (p b : String) : strIn p (p ++ b) = true := by
  show listInfB p.toList (p ++ b).data = true
  rw [String.data_append]
  exact listInfB_of_pre (listPreB_append_self p.data b.data)

/-! ## Claim C7: the status-change operation -/

/-- A vendor that always answers the status-change POST with a 500 whose
body is `"vendor body text"`. -/
def statusVendor500 : StatusBody → HttpResp := fun _ =>
  { status := 500, reason := "Internal Server Error",
    url := "https://dviapi.rowriter.com/ChangeStatus", text := "vendor body text" }

/-- A vendor that accepts the status-change POST and echoes the requested
status in its body. -/
def statusVendorOk : StatusBody → HttpResp := fun b =>
  { status := 200, reason := "OK", url := "https://dviapi.rowriter.com/ChangeStatus",
    text := "raw " ++ b.Status }

/-- C7 counterexample: on a vendor 500 with body `"vendor body text"`,
`change_status` raises the `requests` message, which carries the HTTP
status code but does not contain the response body — contradicting the
claim that the error message includes both the status and the body. -/
theorem c7_status_change_counterexample :
    change_status statusVendor500 "token0" "12345" "3" "R"
        = .error "500 Server Error: Internal Server Error for url: https://dviapi.rowriter.com/ChangeStatus"
      ∧ (statusVendor500 { Status := "3", RoType := "R", RONumber := "12345" }).text
          = "vendor body text"
      ∧ strIn "vendor body text"
          "500 Server Error: Internal Server Error for url: https://dviapi.rowriter.com/ChangeStatus"
        = false := by
  refine ⟨?_, rfl, by decide⟩
  decide

/-- C7 (amended): for every status in `{3,4,5,8}`, token and RO number,
`change_status` returns the vendor's raw response body unchanged when
`raise_for_status` does not raise (status outside 400-599), and on a 4xx or
5xx raises an error whose message includes the HTTP status code (but not
necessarily the response body). -/
theorem c7_status_change_amended (vendor : StatusBody → HttpResp)
    (token ro_number status ro_type : String)
    (hs : status ∈ (["3", "4", "5", "8"] : List String)) :
    ((vendor { Status := status, RoType := ro_type, RONumber := ro_number }).status < 400
        ∨ 600 ≤ (vendor { Status := status, RoType := ro_type, RONumber := ro_number }).status →
      change_status vendor token ro_number status ro_type
        = .ok (vendor { Status := status, RoType := ro_type, RONumber := ro_number }).text)
    ∧ (400 ≤ (vendor { Status := status, RoType := ro_type, RONumber := ro_number }).status →
        (vendor { Status := status, RoType := ro_type, RONumber := ro_number }).status < 600 →
      change_status vendor token ro_number status ro_type
          = .error (httpErrorMsg (vendor { Status := status, RoType := ro_type, RONumber := ro_number }))
        ∧ strIn
            (toString (vendor { Status := status, RoType := ro_type, RONumber := ro_number }).status)
            (httpErrorMsg (vendor { Status := status, RoType := ro_type, RONumber := ro_number }))
          = true) := by
  constructor
  · intro h
    unfold change_status raise_for_status
    have hn : ¬ (400 ≤ (vendor { Status := status, RoType := ro_type, RONumber := ro_number }).status
        ∧ (vendor { Status := status, RoType := ro_type, RONumber := ro_number }).status < 600) := by
      omega
    simp [hn]
  · intro h4 h6
    have hc : (400 ≤ (vendor { Status := status, RoType := ro_type, RONumber := ro_number }).status
        ∧ (vendor { Status := status, RoType := ro_type, RONumber := ro_number }).status < 600) :=
      ⟨h4, h6⟩
    constructor
    · unfold change_status raise_for_status
      simp [hc]
    · unfold httpErrorMsg
      by_cases h5 : (vendor { Status := status, RoType := ro_type, RONumber := ro_number }).status < 500
      · simp only [h5, if_true]
        simpa [String.append_assoc] using
          strIn_prefix_append
            (toString (vendor { Status := status, RoType := ro_type, RONumber := ro_number }).status)
            (" Client Error: "
              ++ (vendor { Status := status, RoType := ro_type, RONumber := ro_number }).reason
              ++ " for url: "
              ++ (vendor { Status := status, RoType := ro_type, RONumber := ro_number }).url)
      · simp only [h5, if_false]
        simpa [String.append_assoc] using
          strIn_prefix_append
            (toString (vendor { Status := status, RoType := ro_type, RONumber := ro_number }).status)
            (" Server Error: "
              ++ (vendor { Status := status, RoType := ro_type, RONumber := ro_number }).reason
              ++ " for url: "
              ++ (vendor { Status := status, RoType := ro_type, RONumber := ro_number }).url)

/-- Witness for C7 at a concrete accepting vendor and status `"3"`. -/
theorem c7_status_change_amended_witness :
    ((statusVendorOk { Status := "3", RoType := "R", RONumber := "12345" }).status < 400
        ∨ 600 ≤ (statusVendorOk { Status := "3", RoType := "R", RONumber := "12345" }).status →
      change_status statusVendorOk "token0" "12345" "3" "R"
        = .ok (statusVendorOk { Status := "3", RoType := "R", RONumber := "12345" }).text)
    ∧ (400 ≤ (statusVendorOk { Status := "3", RoType := "R", RONumber := "12345" }).status →
        (statusVendorOk { Status := "3", RoType := "R", RONumber := "12345" }).status < 600 →
      change_status statusVendorOk "token0" "12345" "3" "R"
          = .error (httpErrorMsg (statusVendorOk { Status := "3", RoType := "R", RONumber := "12345" }))
        ∧ strIn
            (toString (statusVendorOk { Status := "3", RoType := "R", RONumber := "12345" }).status)
            (httpErrorMsg (statusVendorOk { Status := "3", RoType := "R", RONumber := "12345" }))
          = true) :=
  c7_status_change_amended statusVendorOk "token0" "12345" "3" "R" (by decide)

/-! ## Claim C8: the media-upload blob identifier -/

theorem head?_dropWhile (q : Char → Bool) (l : List Char) {a : Char}
    (h : (l.dropWhile q).head? = some a) : q a = false := by
  induction l with
  | nil => simp at h
  | cons c cs ih =>
    by_cases hq : q c
    · exact ih (by simpa [List.dropWhile, hq] using h)
    · simp [List.dropWhile, hq] at h
      subst h
      simpa using hq

theorem getLast?_dropWhile_of_ne_nil (q : Char → Bool) (l : List Char)
    (h : l.dropWhile q ≠ []) : (l.dropWhile q).getLast? = l.getLast? := by
  induction l with
  | nil => simp at h
  | cons c cs ih =>
    by_cases hq : q c
    · have h2 : cs.dropWhile q ≠ [] := by simpa [List.dropWhile, hq] using h
      have hcs : cs ≠ [] := by
        intro hc; subst hc; simp [List.dropWhile] at h2
      obtain ⟨d, ds, rfl⟩ := List.exists_cons_of_ne_nil hcs
      rw [List.dropWhile_cons_of_pos hq, ih h2, List.getLast?_cons_cons]
    · rw [List.dropWhile_cons_of_neg hq]

/-- The result of `stripQuotes` neither starts nor ends with a double
quote. -/
theorem stripQuotes_no_surrounding (s : String) :
    (stripQuotes s).toList.head? ≠ some '"'
      ∧ (stripQuotes s).toList.getLast? ≠ some '"' := by
  have htl : (stripQuotes s).toList
      = ((s.data.dropWhile isQuote).reverse.dropWhile isQuote).reverse := rfl
  constructor
  · rw [htl, List.head?_reverse]
    by_cases hM : ((s.data.dropWhile isQuote).reverse.dropWhile isQuote) = []
    · simp [hM]
    · rw [getLast?_dropWhile_of_ne_nil _ _ hM, List.getLast?_reverse]
      cases hA : (s.data.dropWhile isQuote).head? with
      | none => simp
      | some a =>
        have hqa := head?_dropWhile isQuote s.data hA
        simp only [ne_eq, Option.some.injEq]
        intro hc
        subst hc
        simp [isQuote] at hqa
  · rw [htl, List.getLast?_reverse]
    cases hM : ((s.data.dropWhile isQuote).reverse.dropWhile isQuote).head? with
    | none => simp
    | some a =>
      have hqa := head?_dropWhile isQuote (s.data.dropWhile isQuote).reverse hM
      simp only [ne_eq, Option.some.injEq]
      intro hc
      subst hc
      simp [isQuote] at hqa

/-- Stripping quotes from a string ending in `".jpg"` leaves the `".jpg"`
suffix in place. -/
theorem stripQuotes_jpg (hexPart : String) :
    endsWithB ".jpg" (stripQuotes (hexPart ++ ".jpg")) = true := by
  have hdata : (hexPart ++ ".jpg").toList = hexPart.data ++ ['.', 'j', 'p', 'g'] := by
    rw [show (hexPart ++ ".jpg").toList = (hexPart ++ ".jpg").data from rfl,
      String.data_append]
  obtain ⟨X, hX⟩ : ∃ X, ((hexPart ++ ".jpg").toList.dropWhile isQuote).reverse
      = 'g' :: ('p' :: ('j' :: ('.' :: X))) := by
    rw [hdata, List.dropWhile_append]
    by_cases he : (hexPart.data.dropWhile isQuote).isEmpty
    · refine ⟨[], ?_⟩
      simp only [he, if_true]
      decide
    · refine ⟨(hexPart.data.dropWhile isQuote).reverse, ?_⟩
      simp [he, List.reverse_append]
  have hM : (((hexPart ++ ".jpg").toList.dropWhile isQuote).reverse.dropWhile isQuote)
      = ((hexPart ++ ".jpg").toList.dropWhile isQuote).reverse := by
    rw [hX]
    exact List.dropWhile_cons_of_neg (by decide)
  show listPreB (".jpg".toList.reverse) ((stripQuotes (hexPart ++ ".jpg")).toList.reverse) = true
  rw [show (stripQuotes (hexPart ++ ".jpg")).toList
      = (((hexPart ++ ".jpg").toList.dropWhile isQuote).reverse.dropWhile isQuote).reverse
      from rfl, hM, List.reverse_reverse, hX]
  exact listPreB_append_self ['g', 'p', 'j', '.'] X

/-- A vendor whose `resp.json()` string echoes the uploaded blob name. -/
def mediaEcho : String → Except String String := fun b => .ok b

/-- C8: for a raw-bytes upload the vendor accepts, `save_media` returns the
vendor's reply string with surrounding double quotes stripped; when the
vendor echoes the uploaded blob name (its documented behavior), the
returned identifier has no surrounding quote characters and ends in
`".jpg"`. -/
theorem c8_save_media_blob (hexPart : String) (image_bytes : List Nat)
    (vendorReply : String → Except String String)
    (hb : image_bytes ≠ [])
    (hecho : vendorReply (hexPart ++ ".jpg") = .ok (hexPart ++ ".jpg")) :
    save_media none (some image_bytes) hexPart vendorReply
        = .ok (stripQuotes (hexPart ++ ".jpg"))
      ∧ (stripQuotes (hexPart ++ ".jpg")).toList.head? ≠ some '"'
      ∧ (stripQuotes (hexPart ++ ".jpg")).toList.getLast? ≠ some '"'
      ∧ endsWithB ".jpg" (stripQuotes (hexPart ++ ".jpg")) = true := by
  refine ⟨?_, (stripQuotes_no_surrounding _).1, (stripQuotes_no_surrounding _).2,
    stripQuotes_jpg hexPart⟩
  have hby : truthyBytes (some image_bytes) = true := by simp [truthyBytes, hb]
  unfold save_media
  simp [truthyOpt, hby, hecho]

/-- Witness for C8 at concrete bytes, hex part and an echoing vendor. -/
theorem c8_save_media_blob_witness :
    save_media none (some [7, 7, 7]) "a1b2c3" mediaEcho
        = .ok (stripQuotes ("a1b2c3" ++ ".jpg"))
      ∧ (stripQuotes ("a1b2c3" ++ ".jpg")).toList.head? ≠ some '"'
      ∧ (stripQuotes ("a1b2c3" ++ ".jpg")).toList.getLast? ≠ some '"'
      ∧ endsWithB ".jpg" (stripQuotes ("a1b2c3" ++ ".jpg")) = true :=
  c8_save_media_blob "a1b2c3" [7, 7, 7] mediaEcho (by decide) rfl

/-! ## Claims C5 and C6: ISO labor/item resolution -/

theorem find?_first {A : Type} (p : A → Bool) (pre : List A) (it : A) (post : List A)
    (hit : p it = true) (hpre : ∀ x ∈ pre, p x = false) :
    List.find? p (pre ++ it :: post) = some it := by
  induction pre with
  | nil => simp [List.find?, hit]
  | cons a as ih =>
    have ha : p a = false := hpre a (by simp)
    simp only [List.cons_append, List.find?]
    rw [ha]
    exact ih (fun x hx => hpre x (by simp [hx]))

theorem pick_iso_item_found (pre : List ItemRec) (it : ItemRec) (post : List ItemRec)
    (hit : strIn "iso" (lowerStr (it.Title.getD "")) = true)
    (hpre : ∀ x ∈ pre, strIn "iso" (lowerStr (x.Title.getD "")) = false) :
    pick_iso_item (pre ++ it :: post) = some it := by
  unfold pick_iso_item
  rw [find?_first _ pre it post hit hpre]

theorem pick_iso_item_fallback (it : ItemRec) (rest : List ItemRec)
    (hall : ∀ x ∈ it :: rest, strIn "iso" (lowerStr (x.Title.getD "")) = false) :
    pick_iso_item (it :: rest) = some it := by
  unfold pick_iso_item
  rw [List.find?_eq_none.mpr (fun x hx => by simp [hall x hx])]
  rfl

theorem find_labor_go_none (target : String) (L : List Labor)
    (h : ∀ l ∈ L, strIn (lowerStr target) (lowerStr (l.Description.getD "")) = false) :
    find_labor_id_by_description.go target L = none := by
  induction L with
  | nil => rfl
  | cons l rest ih =>
    have hl := h l (by simp)
    simp only [find_labor_id_by_description.go]
    rw [hl]
    simp only [Bool.false_and, if_false]
    exact ih (fun x hx => h x (by simp [hx]))

/-- The static-override fast path of the resolver is off. -/
def dynamicPath (staticLabor staticItem : Option String) : Prop :=
  (truthyOpt staticLabor && truthyOpt staticItem) = false

/-- C5: on the dynamic path, with the labor matched, the resolver selects
the first checklist item whose `Title` contains `"iso"` case-insensitively;
when no title matches it falls back to the first item of the list; and when
the returned item list is empty it fails with the lookup error instead of
selecting anything. -/
theorem c5_item_selection (staticLabor staticItem : Option String)
    (env : VendorEnv) (ro laborId : String) (detail : RODetail)
    (payload : ItemsPayload)
    (hdyn : dynamicPath staticLabor staticItem)
    (hdet : env.getRODetail ro = .ok detail)
    (hfind : find_labor_id_by_description detail "ISO" = some laborId)
    (hitems : env.getCheckListItems laborId = .ok payload) :
    (∀ pre it post itemId,
        payload.itemList = pre ++ it :: post →
        strIn "iso" (lowerStr (it.Title.getD "")) = true →
        (∀ x ∈ pre, strIn "iso" (lowerStr (x.Title.getD "")) = false) →
        it.ID = some itemId → itemId ≠ "" →
        (resolve_iso_labor_and_item staticLabor staticItem env ro).1
          = .ok (laborId, itemId))
    ∧ (∀ it rest itemId,
        payload.itemList = it :: rest →
        (∀ x ∈ it :: rest, strIn "iso" (lowerStr (x.Title.getD "")) = false) →
        it.ID = some itemId → itemId ≠ "" →
        (resolve_iso_labor_and_item staticLabor staticItem env ro).1
          = .ok (laborId, itemId))
    ∧ (payload.itemList = [] →
        (resolve_iso_labor_and_item staticLabor staticItem env ro).1
          = .error ("No checklist items returned for ISO labor " ++ laborId
              ++ " / RO " ++ ro)) := by
  have hd : (truthyOpt staticLabor && truthyOpt staticItem) = false := hdyn
  refine ⟨?_, ?_, ?_⟩
  · intro pre it post itemId hsplit hit hpre hid hne
    unfold resolve_iso_labor_and_item
    simp only [hd, Bool.false_eq_true, if_false, hdet, hfind, hitems, hsplit,
      pick_iso_item_found pre it post hit hpre, hid, hne, ite_false]
  · intro it rest itemId hsplit hall hid hne
    unfold resolve_iso_labor_and_item
    simp only [hd, Bool.false_eq_true, if_false, hdet, hfind, hitems, hsplit,
      pick_iso_item_fallback it rest hall, hid, hne, ite_false]
  · intro hempty
    unfold resolve_iso_labor_and_item
    simp only [hd, Bool.false_eq_true, if_false, hdet, hfind, hitems, hempty]
    rfl

/-- An RO detail with one ISO labor, for exercising the resolver. -/
def isoLaborDetail : RODetail :=
  { Requests := none,
    LaborList := [{ Description := some "ISO Inspection", ID := some "L1" }],
    CheckLists := [] }

/-- An RO detail whose only labor is not ISO-related. -/
def noIsoLaborDetail : RODetail :=
  { Requests := some "Brake pads",
    LaborList := [{ Description := some "Brake job", ID := some "L9" }],
    CheckLists := [] }

/-- A vendor for the resolver: RO `"100"` has the ISO labor, RO `"200"`
does not; the checklist items contain one non-ISO and one ISO title. -/
def envResolve : VendorEnv :=
  { login := .ok "tok"
    getRODetail := fun ro => if ro = "100" then .ok isoLaborDetail else .ok noIsoLaborDetail
    getCheckListItems := fun _ =>
      .ok (.list [{ Title := some "Brakes", ID := some "I0" },
        { Title := some "ISO Items", ID := some "I1" }])
    saveMedia := fun _ => .ok "b"
    attachImage := fun _ _ _ _ => .ok "a"
    saveChecklist := fun _ => .ok "s"
    changeStatus := fun _ _ => .ok "c" }

/-- Witness for C5: on the concrete vendor the resolver picks the item
titled `"ISO Items"` (the first whose title contains `"iso"`). -/
theorem c5_item_selection_witness :
    (resolve_iso_labor_and_item none none envResolve "100").1 = .ok ("L1", "I1") :=
  (c5_item_selection none none envResolve "100" "L1" isoLaborDetail
      (.list [{ Title := some "Brakes", ID := some "I0" },
        { Title := some "ISO Items", ID := some "I1" }])
      (by unfold dynamicPath; decide) (by decide) (by decide) (by decide)).1
    [{ Title := some "Brakes", ID := some "I0" }]
    { Title := some "ISO Items", ID := some "I1" } [] "I1"
    rfl (by decide) (by decide) rfl (by decide)

/-- C6: on the dynamic path, when no labor description of the RO detail
contains the search keyword, the resolver fails with the lookup error; and
whenever resolution succeeds it is either via the static overrides or with
a labor id that the description search actually returned — never a silent
`None`. -/
theorem c6_lookup_failure (staticLabor staticItem : Option String)
    (env : VendorEnv) (ro : String) (detail : RODetail)
    (hdyn : dynamicPath staticLabor staticItem)
    (hdet : env.getRODetail ro = .ok detail)
    (hnol : ∀ l ∈ detail.LaborList,
      strIn "iso" (lowerStr (l.Description.getD "")) = false) :
    (resolve_iso_labor_and_item staticLabor staticItem env ro).1
        = .error ("Could not find ISO labor for RO " ++ ro)
      ∧ (∀ (sl si : Option String) (env2 : VendorEnv) (ro2 lid iid : String),
          (resolve_iso_labor_and_item sl si env2 ro2).1 = .ok (lid, iid) →
          (truthyOpt sl && truthyOpt si) = true
            ∨ ∃ detail2, env2.getRODetail ro2 = .ok detail2
                ∧ find_labor_id_by_description detail2 "ISO" = some lid) := by
  have hd : (truthyOpt staticLabor && truthyOpt staticItem) = false := hdyn
  constructor
  · have hfn : find_labor_id_by_description detail "ISO" = none := by
      unfold find_labor_id_by_description
      apply find_labor_go_none
      intro l hl
      rw [show lowerStr "ISO" = "iso" from by decide]
      exact hnol l hl
    unfold resolve_iso_labor_and_item
    simp only [hd, Bool.false_eq_true, if_false, hdet, hfn]
  · intro sl si env2 ro2 lid iid hres
    by_cases hst : (truthyOpt sl && truthyOpt si) = true
    · exact Or.inl hst
    · right
      have hd2 : (truthyOpt sl && truthyOpt si) = false := by
        simpa using hst
      unfold resolve_iso_labor_and_item at hres
      simp only [hd2, Bool.false_eq_true, if_false] at hres
      split at hres
      · simp at hres
      · rename_i detail2 heqdet
        split at hres
        · simp at hres
        · rename_i lid2 heqfind
          split at hres
          · simp at hres
          · rename_i payload2 heqitems
            split at hres
            · simp at hres
            · rename_i item heqpick
              split at hres
              · simp at hres
              · rename_i iid2 heqid
                split at hres
                · simp at hres
                · simp at hres
                  exact ⟨detail2, heqdet, by rw [← hres.1]; exact heqfind⟩

/-- Witness for C6: RO `"200"` of the concrete vendor has no ISO labor, and
the resolver raises the lookup error. -/
theorem c6_lookup_failure_witness :
    (resolve_iso_labor_and_item none none envResolve "200").1
      = .error ("Could not find ISO labor for RO " ++ "200") :=
  (c6_lookup_failure none none envResolve "200" noIsoLaborDetail
    (by unfold dynamicPath; decide) (by decide) (by decide)).1

/-! ## Concrete fixtures for the handler claims -/

/-- A vendor on which every call succeeds. -/
def envAllOk : VendorEnv :=
  { login := .ok "tok"
    getRODetail := fun _ => .error "unused detail"
    getCheckListItems := fun _ => .error "unused items"
    saveMedia := fun p => .ok ("blob-" ++ p)
    attachImage := fun _ _ _ _ => .ok "attached"
    saveChecklist := fun _ => .ok "saved"
    changeStatus := fun _ s => .ok ("status-" ++ s) }

/-- A deterministic uuid-hex supply for concrete evaluations. -/
def u0 : Nat → String := fun n => "hex" ++ toString n

/-- A constant slash-free uuid-hex supply. -/
def uA : Nat → String := fun _ => "cafe"

/-- The end-to-end JSON request of the specification's scenario:
`{"ro_number":"12345","comments":"Brake pads worn","image_paths":[]}` with
both flags left at their defaults. -/
def isoReqNoImages : IsoReq :=
  { multipart := false, files := [], ro_number := some "12345",
    comments := some "Brake pads worn", condition := none,
    image_paths := some [], images_base64 := none,
    move_to_start := none, move_to_complete := none }

/-! ## Claim C1: the end-to-end vendor-operation order -/

/-- C1 counterexample: on the all-success vendor, the handler issues
login, checklist-text save (condition `"Failed Inspection"`), status 3,
status 4 — in that order — and responds `ok` with empty `blobs` and
`upload_errors`; the trace is not the claimed order, which puts the
status-3 change before the checklist save. -/
theorem c1_endtoend_counterexample :
    (dvi_iso_inspection ISO_LABOR_ID ISO_ITEM_ID envAllOk u0 (fun _ => false)
        isoReqNoImages).ok = true
    ∧ (dvi_iso_inspection ISO_LABOR_ID ISO_ITEM_ID envAllOk u0 (fun _ => false)
        isoReqNoImages).blobs = []
    ∧ (dvi_iso_inspection ISO_LABOR_ID ISO_ITEM_ID envAllOk u0 (fun _ => false)
        isoReqNoImages).upload_errors = []
    ∧ (dvi_iso_inspection ISO_LABOR_ID ISO_ITEM_ID envAllOk u0 (fun _ => false)
        isoReqNoImages).trace
      = [VendorOp.login,
         VendorOp.saveChecklist
           { RONumber := "12345", LaborID := "e96a6a31-2400-47d4-84bd-155fccdb933b",
             ItemID := "7dfec4da-e129-4bff-860f-f3f1c440708b",
             Condition := "Failed Inspection", Comments := "Brake pads worn",
             ROType := "R" },
         VendorOp.changeStatus "12345" "3", VendorOp.changeStatus "12345" "4"]
    ∧ (dvi_iso_inspection ISO_LABOR_ID ISO_ITEM_ID envAllOk u0 (fun _ => false)
        isoReqNoImages).trace
      ≠ [VendorOp.login, VendorOp.changeStatus "12345" "3",
         VendorOp.saveChecklist
           { RONumber := "12345", LaborID := "e96a6a31-2400-47d4-84bd-155fccdb933b",
             ItemID := "7dfec4da-e129-4bff-860f-f3f1c440708b",
             Condition := "Failed Inspection", Comments := "Brake pads worn",
             ROType := "R" },
         VendorOp.changeStatus "12345" "4"] := by
  refine ⟨by decide, by decide, by decide, by decide, by decide⟩

/-- C1 (amended): with the configured static ISO ids and an all-success
vendor, a JSON POST with a truthy `ro_number`, non-empty `comments`, empty
`image_paths` and default flags performs exactly login, checklist-text save
with condition `"Failed Inspection"`, status change to `"3"`, status change
to `"4"` — the checklist save precedes both status changes — and responds
`ok:true` with empty `blobs` and `upload_errors`. -/
theorem c1_endtoend_amended (r c tok s1 s3 s4 : String) (env : VendorEnv)
    (u : Nat → String) (d : String → Bool)
    (hr : r ≠ "") (hc : c ≠ "")
    (hlogin : env.login = .ok tok)
    (hsave : env.saveChecklist
        { RONumber := r, LaborID := ISO_LABOR_ID.getD "",
          ItemID := ISO_ITEM_ID.getD "", Condition := "Failed Inspection",
          Comments := c, ROType := "R" } = .ok s1)
    (h3 : env.changeStatus r "3" = .ok s3)
    (h4 : env.changeStatus r "4" = .ok s4) :
    dvi_iso_inspection ISO_LABOR_ID ISO_ITEM_ID env u d
        { multipart := false, files := [], ro_number := some r,
          comments := some c, condition := none, image_paths := some [],
          images_base64 := none, move_to_start := none, move_to_complete := none }
      = { httpStatus := 200, ok := true, error := none, blobs := [],
          upload_errors := [],
          trace := [VendorOp.login,
            VendorOp.saveChecklist
              { RONumber := r, LaborID := ISO_LABOR_ID.getD "",
                ItemID := ISO_ITEM_ID.getD "", Condition := "Failed Inspection",
                Comments := c, ROType := "R" },
            VendorOp.changeStatus r "3", VendorOp.changeStatus r "4"],
          created := [], staged := [], deleted := [] } := by
  unfold dvi_iso_inspection
  have hro : truthyOpt (some r) = true := by simp [truthyOpt, hr]
  have hstatic : (truthyOpt ISO_LABOR_ID && truthyOpt ISO_ITEM_ID) = true := by decide
  have hflag : (lowerStr (pyStr (FlagVal.s "true")) == "true") = true := by decide
  simp only [hro, Bool.not_true, Bool.false_eq_true, if_false,
    Option.getD_some, stageFiles, stageB64, List.nil_append, List.append_nil,
    resolve_iso_labor_and_item, hstatic, if_true, hlogin,
    List.foldl_nil, finalFlagTrue, pyStr, Option.getD_none, hflag]
  have hcond : (if ("" : String) ≠ "" then ""
      else if c ≠ "" then "Failed Inspection" else "") = "Failed Inspection" := by
    simp [hc]
  rw [hcond, hsave]
  simp only [show ((lowerStr "true" == "true") = true) from by decide, if_true]
  rw [h3, h4]
  simp [cleanupDeleted]

/-- Witness for C1 (amended) on the concrete scenario request and the
all-success vendor. -/
theorem c1_endtoend_amended_witness :
    dvi_iso_inspection ISO_LABOR_ID ISO_ITEM_ID envAllOk u0 (fun _ => false)
        isoReqNoImages
      = { httpStatus := 200, ok := true, error := none, blobs := [],
          upload_errors := [],
          trace := [VendorOp.login,
            VendorOp.saveChecklist
              { RONumber := "12345", LaborID := ISO_LABOR_ID.getD "",
                ItemID := ISO_ITEM_ID.getD "", Condition := "Failed Inspection",
                Comments := "Brake pads worn", ROType := "R" },
            VendorOp.changeStatus "12345" "3", VendorOp.changeStatus "12345" "4"],
          created := [], staged := [], deleted := [] } :=
  c1_endtoend_amended "12345" "Brake pads worn" "tok" "saved" "status-3"
    "status-4" envAllOk u0 (fun _ => false) (by decide) (by decide)
    rfl rfl rfl rfl

/-! ## Claim C2: the response contract of the endpoints -/

/-- The three response shapes of the final server's ISO handler: 400 with a
missing-field error exactly when `ro_number` is falsy, 500 with an error
string for a caught exception, 200 with no error on success. -/
def respShapes (r : IsoResult) (missingRo : Bool) : Prop :=
  (r.httpStatus = 400 ∧ r.ok = false ∧ r.error.isSome = true ∧ missingRo = true)
  ∨ (r.httpStatus = 500 ∧ r.ok = false ∧ r.error.isSome = true ∧ missingRo = false)
  ∨ (r.httpStatus = 200 ∧ r.ok = true ∧ r.error = none ∧ missingRo = false)

/-- C2 counterexample: the bridge's `/dvi/start` with the `ro_number` field
absent reports HTTP 500 (the caught `KeyError`), not the claimed 400. -/
theorem c2_response_contract_counterexample :
    dvi_start_bridge (.ok "tok") (fun _ _ => .ok "raw") none
        = { httpStatus := 500, ok := false, error := some "\x27ro_number\x27",
            raw := none }
      ∧ (dvi_start_bridge (.ok "tok") (fun _ _ => .ok "raw") none).httpStatus
        ≠ 400 := by
  exact ⟨rfl, by decide⟩

/-- The three response shapes of the bridge's ISO handler. -/
def bridgeRespShapes (r : BridgeIsoResult) (missingRo : Bool) : Prop :=
  (r.httpStatus = 400 ∧ r.ok = false ∧ r.error.isSome = true ∧ missingRo = true)
  ∨ (r.httpStatus = 500 ∧ r.ok = false ∧ r.error.isSome = true ∧ missingRo = false)
  ∨ (r.httpStatus = 200 ∧ r.ok = true ∧ r.error = none ∧ missingRo = false)

/-- The three response shapes of a simple endpoint, with `missingField`
true exactly for the 400 case. -/
def simpleShapes (r : SimpleResult) (missingField : Bool) : Prop :=
  (r.httpStatus = 400 ∧ r.ok = false ∧ r.error.isSome = true ∧ missingField = true)
  ∨ (r.httpStatus = 500 ∧ r.ok = false ∧ r.error.isSome = true ∧ missingField = false)
  ∨ (r.httpStatus = 200 ∧ r.ok = true ∧ r.error = none ∧ missingField = false)

/-- The response contract of a status-only endpoint with an explicit
missing-field check: 400 with the endpoint's message exactly when the field
is falsy, 500 carrying the exception's message when login or the status
change raises, and 200 with the raw vendor text on success. -/
def statusEndpointContract
    (h : Except String String → (String → String → Except String String)
      → Option String → SimpleResult)
    (missingMsg status : String) : Prop :=
  (∀ el es ro, truthyOpt ro = false →
      h el es ro
        = { httpStatus := 400, ok := false, error := some missingMsg, raw := none })
  ∧ (∀ el es ro e, truthyOpt ro = true → el = .error e →
      h el es ro = { httpStatus := 500, ok := false, error := some e, raw := none })
  ∧ (∀ el es ro tok e, truthyOpt (some ro) = true → el = .ok tok →
      es ro status = .error e →
      h el es (some ro)
        = { httpStatus := 500, ok := false, error := some e, raw := none })
  ∧ (∀ el es ro tok raw, truthyOpt (some ro) = true → el = .ok tok →
      es ro status = .ok raw →
      h el es (some ro)
        = { httpStatus := 200, ok := true, error := none, raw := some raw })

/-- The response contract of a bridge status-only endpoint that indexes
`data["ro_number"]`: a missing field is a 500 carrying the `KeyError`
text — never a 400 — and otherwise exceptions map to 500 with their
message and success to 200 with the raw vendor text. -/
def keyErrorEndpointContract
    (h : Except String String → (String → String → Except String String)
      → Option String → SimpleResult)
    (status : String) : Prop :=
  (∀ el es, h el es none
      = { httpStatus := 500, ok := false, error := some "\x27ro_number\x27",
          raw := none })
  ∧ (∀ el es ro e, el = .error e →
      h el es (some ro)
        = { httpStatus := 500, ok := false, error := some e, raw := none })
  ∧ (∀ el es ro tok e, el = .ok tok → es ro status = .error e →
      h el es (some ro)
        = { httpStatus := 500, ok := false, error := some e, raw := none })
  ∧ (∀ el es ro tok raw, el = .ok tok → es ro status = .ok raw →
      h el es (some ro)
        = { httpStatus := 200, ok := true, error := none, raw := some raw })

/-- C2 (amended): every JSON endpoint of both servers always answers with a
response carrying a boolean `ok`, an HTTP status in {200, 400, 500}, and an
error string exactly on failure, with caught exception messages preserved;
endpoints with an explicit missing-field check answer 400 there — but the
bridge's `/dvi/start`, `/dvi/iso_complete`, `/dvi/pma_complete` and
`/dvi/prime_iso` index `data["ro_number"]` directly and report a missing
field as a 500 carrying the `KeyError` text, not a 400. -/
theorem c2_response_contract_amended :
    (∀ (sl si : Option String) (env : VendorEnv) (u : Nat → String)
        (d : String → Bool) (req : IsoReq),
      respShapes (dvi_iso_inspection sl si env u d req) (!truthyOpt req.ro_number))
    ∧ (∀ (sl si : Option String) (env : VendorEnv) (u : Nat → String)
        (d : String → Bool) (req : IsoReq) (e : String),
      truthyOpt req.ro_number = true → env.login = .error e →
      (dvi_iso_inspection sl si env u d req).httpStatus = 500
        ∧ (dvi_iso_inspection sl si env u d req).error = some e)
    ∧ statusEndpointContract dvi_start_final
        "Missing required field \x27ro_number\x27" "3"
    ∧ statusEndpointContract dvi_iso_complete_final "Missing ro_number" "4"
    ∧ statusEndpointContract dvi_pma_complete_final "Missing ro_number" "5"
    ∧ statusEndpointContract dvi_qc_complete_final "Missing ro_number" "8"
    ∧ (∀ (u : Nat → String) (file : Option MPFile),
      simpleShapes (dvi_upload_image_final u file)
        (match file with | none => true | some f => f.filename == ""))
    ∧ health_final
        = { httpStatus := 200, ok := true, error := none,
            raw := some "DVI bridge server running" }
    ∧ (∀ (env : BridgeEnv) (u : Nat → String) (req : BridgeIsoReq),
      bridgeRespShapes (dvi_iso_inspection_bridge env u req)
        (!truthyOpt req.ro_number))
    ∧ (∀ (env : BridgeEnv) (u : Nat → String) (req : BridgeIsoReq) (e : String),
      truthyOpt req.ro_number = true → env.login = .error e →
      (dvi_iso_inspection_bridge env u req).httpStatus = 500
        ∧ (dvi_iso_inspection_bridge env u req).error = some e)
    ∧ keyErrorEndpointContract dvi_start_bridge "3"
    ∧ keyErrorEndpointContract dvi_iso_complete_bridge "4"
    ∧ keyErrorEndpointContract dvi_pma_complete_bridge "5"
    ∧ statusEndpointContract dvi_qc_complete_bridge "Missing ro_number" "8"
    ∧ (∀ (u : Nat → String) (file : Option MPFile),
      simpleShapes (dvi_upload_image_bridge u file)
        (match file with | none => true | some f => f.filename == ""))
    ∧ (∀ (el : Except String String)
        (esv : String → String → String → Except String String)
        (ro lab notes : Option String),
      simpleShapes (dvi_pma_technician_notes_bridge el esv ro lab notes)
        (!(truthyOpt ro && truthyOpt lab && truthyOpt notes))
      ∧ ((truthyOpt ro && truthyOpt lab && truthyOpt notes) = false →
        dvi_pma_technician_notes_bridge el esv ro lab notes
          = { httpStatus := 400, ok := false,
              error := some "Missing required fields", raw := none })
      ∧ (∀ e, (truthyOpt ro && truthyOpt lab && truthyOpt notes) = true →
        el = .error e →
        dvi_pma_technician_notes_bridge el esv ro lab notes
          = { httpStatus := 500, ok := false, error := some e, raw := none }))
    ∧ (∀ (el : Except String String) (ep : String → String → Except String String),
      dvi_prime_iso_bridge el ep none
        = { httpStatus := 500, ok := false, error := some "\x27ro_number\x27",
            raw := none })
    ∧ (∀ (el : Except String String) (ep : String → String → Except String String)
        (ro : String), simpleShapes (dvi_prime_iso_bridge el ep (some ro)) false)
    ∧ (∀ (el : Except String String) (ep : String → RowidPage) (ro : Option String),
      simpleShapes (dvi_get_rowid_bridge el ep ro) (!truthyOpt ro)) := by
  refine ⟨?_, ?_, ?_, ?_, ?_, ?_, ?_, rfl, ?_, ?_, ?_, ?_, ?_, ?_, ?_, ?_, ?_, ?_, ?_⟩
  · intro sl si env u d req
    by_cases hro : truthyOpt req.ro_number
    · unfold dvi_iso_inspection
      simp only [hro, Bool.not_true, Bool.false_eq_true, if_false]
      repeat' split
      all_goals simp [respShapes]
    · unfold dvi_iso_inspection
      simp only [hro]
      simp [respShapes]
  · intro sl si env u d req e hro hl
    unfold dvi_iso_inspection
    simp [hro, hl]
  · refine ⟨?_, ?_, ?_, ?_⟩
    · intro el es ro h
      unfold dvi_start_final
      simp [h]
    · intro el es ro e h he
      unfold dvi_start_final
      simp [h, he]
    · intro el es ro tok e h hl he
      unfold dvi_start_final
      simp [h, hl, he]
    · intro el es ro tok raw h hl hs
      unfold dvi_start_final
      simp [h, hl, hs]
  · refine ⟨?_, ?_, ?_, ?_⟩
    · intro el es ro h
      unfold dvi_iso_complete_final
      simp [h]
    · intro el es ro e h he
      unfold dvi_iso_complete_final
      simp [h, he]
    · intro el es ro tok e h hl he
      unfold dvi_iso_complete_final
      simp [h, hl, he]
    · intro el es ro tok raw h hl hs
      unfold dvi_iso_complete_final
      simp [h, hl, hs]
  · refine ⟨?_, ?_, ?_, ?_⟩
    · intro el es ro h
      unfold dvi_pma_complete_final
      simp [h]
    · intro el es ro e h he
      unfold dvi_pma_complete_final
      simp [h, he]
    · intro el es ro tok e h hl he
      unfold dvi_pma_complete_final
      simp [h, hl, he]
    · intro el es ro tok raw h hl hs
      unfold dvi_pma_complete_final
      simp [h, hl, hs]
  · refine ⟨?_, ?_, ?_, ?_⟩
    · intro el es ro h
      unfold dvi_qc_complete_final
      simp [h]
    · intro el es ro e h he
      unfold dvi_qc_complete_final
      simp [h, he]
    · intro el es ro tok e h hl he
      unfold dvi_qc_complete_final
      simp [h, hl, he]
    · intro el es ro tok raw h hl hs
      unfold dvi_qc_complete_final
      simp [h, hl, hs]
  · intro u file
    cases file with
    | none => simp [dvi_upload_image_final, simpleShapes]
    | some f =>
      by_cases hf : f.filename = ""
      · simp [dvi_upload_image_final, simpleShapes, hf]
      · simp [dvi_upload_image_final, simpleShapes, hf]
  · intro env u req
    by_cases hro : truthyOpt req.ro_number
    · unfold dvi_iso_inspection_bridge
      simp only [hro, Bool.not_true, Bool.false_eq_true, if_false]
      repeat' split
      all_goals simp [bridgeRespShapes]
    · unfold dvi_iso_inspection_bridge
      simp only [hro]
      simp [bridgeRespShapes]
  · intro env u req e hro hl
    unfold dvi_iso_inspection_bridge
    simp [hro, hl]
  · refine ⟨fun el es => rfl, ?_, ?_, ?_⟩
    · intro el es ro e he
      unfold dvi_start_bridge
      simp [he]
    · intro el es ro tok e hl he
      unfold dvi_start_bridge
      simp [hl, he]
    · intro el es ro tok raw hl hs
      unfold dvi_start_bridge
      simp [hl, hs]
  · refine ⟨fun el es => rfl, ?_, ?_, ?_⟩
    · intro el es ro e he
      unfold dvi_iso_complete_bridge
      simp [he]
    · intro el es ro tok e hl he
      unfold dvi_iso_complete_bridge
      simp [hl, he]
    · intro el es ro tok raw hl hs
      unfold dvi_iso_complete_bridge
      simp [hl, hs]
  · refine ⟨fun el es => rfl, ?_, ?_, ?_⟩
    · intro el es ro e he
      unfold dvi_pma_complete_bridge
      simp [he]
    · intro el es ro tok e hl he
      unfold dvi_pma_complete_bridge
      simp [hl, he]
    · intro el es ro tok raw hl hs
      unfold dvi_pma_complete_bridge
      simp [hl, hs]
  · refine ⟨?_, ?_, ?_, ?_⟩
    · intro el es ro h
      unfold dvi_qc_complete_bridge
      simp [h]
    · intro el es ro e h he
      unfold dvi_qc_complete_bridge
      simp [h, he]
    · intro el es ro tok e h hl he
      unfold dvi_qc_complete_bridge
      simp [h, hl, he]
    · intro el es ro tok raw h hl hs
      unfold dvi_qc_complete_bridge
      simp [h, hl, hs]
  · intro u file
    cases file with
    | none => simp [dvi_upload_image_bridge, simpleShapes]
    | some f =>
      by_cases hf : f.filename = ""
      · simp [dvi_upload_image_bridge, simpleShapes, hf]
      · simp [dvi_upload_image_bridge, simpleShapes, hf]
  · intro el esv ro lab notes
    have hconv : (!truthyOpt ro || !truthyOpt lab || !truthyOpt notes)
        = !(truthyOpt ro && truthyOpt lab && truthyOpt notes) := by
      cases truthyOpt ro <;> cases truthyOpt lab <;> cases truthyOpt notes <;> rfl
    refine ⟨?_, ?_, ?_⟩
    · by_cases hm : (truthyOpt ro && truthyOpt lab && truthyOpt notes) = true
      · unfold dvi_pma_technician_notes_bridge
        rw [hconv, hm]
        cases el with
        | error e => simp [simpleShapes, hm]
        | ok tok =>
          cases hsv : esv (ro.getD "") (lab.getD "") (notes.getD "") with
          | error e => simp [simpleShapes, hm, hsv]
          | ok res => simp [simpleShapes, hm, hsv]
      · have hm2 : (truthyOpt ro && truthyOpt lab && truthyOpt notes) = false := by
          simpa using hm
        unfold dvi_pma_technician_notes_bridge
        rw [hconv, hm2]
        simp [simpleShapes, hm2]
    · intro hm
      unfold dvi_pma_technician_notes_bridge
      rw [hconv, hm]
      simp
    · intro e hm hl
      unfold dvi_pma_technician_notes_bridge
      rw [hconv, hm]
      simp [hl]
  · intro el ep
    rfl
  · intro el ep ro
    unfold dvi_prime_iso_bridge
    cases el with
    | error e => simp [simpleShapes]
    | ok tok =>
      cases hp : ep ro ISO_CHECKLIST_ID with
      | error e => simp [simpleShapes, hp]
      | ok res => simp [simpleShapes, hp]
  · intro el ep ro
    by_cases hro : truthyOpt ro
    · unfold dvi_get_rowid_bridge
      simp only [hro, Bool.not_true, Bool.false_eq_true, if_false]
      cases el with
      | error e => simp [simpleShapes]
      | ok tok =>
        by_cases hs : (ep (ro.getD "")).status ≠ 200
        · simp [hs, simpleShapes]
        · cases htag : (ep (ro.getD "")).tag with
          | none => simp [hs, htag, simpleShapes]
          | some v => simp [hs, htag, simpleShapes]
    · unfold dvi_get_rowid_bridge
      simp only [Bool.not_eq_true] at hro
      simp [hro, simpleShapes]

/-- Witness for C2 (amended) at concrete inputs: the scenario request to
the final ISO handler and the bridge's `/dvi/start` without `ro_number`. -/
theorem c2_response_contract_amended_witness :
    respShapes (dvi_iso_inspection ISO_LABOR_ID ISO_ITEM_ID envAllOk u0
        (fun _ => false) isoReqNoImages) (!truthyOpt isoReqNoImages.ro_number)
    ∧ dvi_start_bridge (.ok "tok") (fun _ _ => .ok "raw") none
        = { httpStatus := 500, ok := false, error := some "\x27ro_number\x27",
            raw := none } :=
  ⟨c2_response_contract_amended.1 ISO_LABOR_ID ISO_ITEM_ID envAllOk u0
      (fun _ => false) isoReqNoImages,
    (c2_response_contract_amended.2.2.2.2.2.2.2.2.2.2.1).1 (.ok "tok")
      (fun _ _ => .ok "raw")⟩

/-! ## Claim C3: per-image failure isolation -/

/-- Did this call succeed (not raise)? -/
def exceptOk {A : Type} : Except String A → Bool
  | .ok _ => true
  | .error _ => false

theorem exceptOk_iff {A : Type} (x : Except String A) :
    exceptOk x = true ↔ ∃ v, x = .ok v := by
  cases x <;> simp [exceptOk]

/-- The blob an image contributes when its upload and attach both succeed. -/
def imageOkBlob (env : VendorEnv) (ro laborId itemId p : String) : Option String :=
  match env.saveMedia p with
  | .error _ => none
  | .ok blob =>
    match env.attachImage ro laborId itemId blob with
    | .error _ => none
    | .ok _ => some blob

/-- The error entry an image contributes when its upload or attach fails. -/
def imageErrMsg (env : VendorEnv) (ro laborId itemId p : String) : Option String :=
  match env.saveMedia p with
  | .error e => some ("Failed to upload/attach " ++ p ++ ": " ++ e)
  | .ok blob =>
    match env.attachImage ro laborId itemId blob with
    | .error e => some ("Failed to upload/attach " ++ p ++ ": " ++ e)
    | .ok _ => none

/-- The vendor calls one image issues. -/
def imageOps (env : VendorEnv) (ro laborId itemId p : String) : List VendorOp :=
  match env.saveMedia p with
  | .error _ => [.saveMedia p]
  | .ok blob => [.saveMedia p, .attachImage ro laborId itemId blob]

theorem foldl_imageStep (env : VendorEnv) (ro laborId itemId : String)
    (ps : List String) (bl er : List String) (tr : List VendorOp) :
    ps.foldl (imageStep env ro laborId itemId) (bl, er, tr)
      = (bl ++ ps.filterMap (imageOkBlob env ro laborId itemId),
         er ++ ps.filterMap (imageErrMsg env ro laborId itemId),
         tr ++ ps.flatMap (imageOps env ro laborId itemId)) := by
  induction ps generalizing bl er tr with
  | nil => simp
  | cons p rest ih =>
    simp only [List.foldl_cons, List.filterMap_cons, List.flatMap_cons]
    rw [show imageStep env ro laborId itemId (bl, er, tr) p
        = (bl ++ (imageOkBlob env ro laborId itemId p).toList,
           er ++ (imageErrMsg env ro laborId itemId p).toList,
           tr ++ imageOps env ro laborId itemId p) from ?_]
    · rw [ih]
      cases hm : env.saveMedia p with
      | error e => simp [imageOkBlob, imageErrMsg, imageOps, hm]
      | ok blob =>
        cases ha : env.attachImage ro laborId itemId blob with
        | error e => simp [imageOkBlob, imageErrMsg, imageOps, hm, ha]
        | ok v => simp [imageOkBlob, imageErrMsg, imageOps, hm, ha]
    · unfold imageStep imageOkBlob imageErrMsg imageOps
      cases hm : env.saveMedia p with
      | error e => simp [hm]
      | ok blob =>
        cases ha : env.attachImage ro laborId itemId blob with
        | error e => simp [hm, ha]
        | ok v => simp [hm, ha]

theorem length_filterMap_eq {A B : Type} (f : A → Option B) (l : List A) :
    (l.filterMap f).length = (l.filter (fun x => (f x).isSome)).length := by
  induction l with
  | nil => rfl
  | cons a as ih =>
    cases hf : f a <;> simp [List.filterMap_cons, hf, ih]

theorem imageErrMsg_mentions_path (env : VendorEnv) (ro laborId itemId p m : String)
    (h : imageErrMsg env ro laborId itemId p = some m) : strIn p m = true := by
  unfold imageErrMsg at h
  cases hm : env.saveMedia p with
  | error e =>
    simp only [hm, Option.some.injEq] at h
    subst h
    simpa [String.append_assoc] using
      strIn_of_segment p "Failed to upload/attach " (": " ++ e)
  | ok blob =>
    simp only [hm] at h
    cases ha : env.attachImage ro laborId itemId blob with
    | error e =>
      simp only [ha, Option.some.injEq] at h
      subst h
      simpa [String.append_assoc] using
        strIn_of_segment p "Failed to upload/attach " (": " ++ e)
    | ok v => simp [ha] at h

/-- C3: with login, resolution (static config), the checklist save and the
status changes succeeding, the handler responds `ok:true` even when
individual image uploads or attaches fail; `blobs` holds exactly the blob
identifiers of the fully successful images in input order, and
`upload_errors` holds exactly one entry per failed image, each containing
that image's path. -/
theorem c3_per_image_isolation (r c tok : String) (ps : List String)
    (env : VendorEnv) (u : Nat → String) (d : String → Bool)
    (hr : r ≠ "")
    (hlogin : env.login = .ok tok)
    (hsave : ∀ a, exceptOk (env.saveChecklist a) = true)
    (hstat : ∀ ro s, exceptOk (env.changeStatus ro s) = true) :
    (dvi_iso_inspection ISO_LABOR_ID ISO_ITEM_ID env u d
        { multipart := false, files := [], ro_number := some r,
          comments := some c, condition := none, image_paths := some ps,
          images_base64 := none, move_to_start := none,
          move_to_complete := none }).ok = true
    ∧ (dvi_iso_inspection ISO_LABOR_ID ISO_ITEM_ID env u d
        { multipart := false, files := [], ro_number := some r,
          comments := some c, condition := none, image_paths := some ps,
          images_base64 := none, move_to_start := none,
          move_to_complete := none }).httpStatus = 200
    ∧ (dvi_iso_inspection ISO_LABOR_ID ISO_ITEM_ID env u d
        { multipart := false, files := [], ro_number := some r,
          comments := some c, condition := none, image_paths := some ps,
          images_base64 := none, move_to_start := none,
          move_to_complete := none }).blobs
      = ps.filterMap (imageOkBlob env r (ISO_LABOR_ID.getD "") (ISO_ITEM_ID.getD ""))
    ∧ (dvi_iso_inspection ISO_LABOR_ID ISO_ITEM_ID env u d
        { multipart := false, files := [], ro_number := some r,
          comments := some c, condition := none, image_paths := some ps,
          images_base64 := none, move_to_start := none,
          move_to_complete := none }).upload_errors
      = ps.filterMap (imageErrMsg env r (ISO_LABOR_ID.getD "") (ISO_ITEM_ID.getD ""))
    ∧ (ps.filterMap (imageErrMsg env r (ISO_LABOR_ID.getD "") (ISO_ITEM_ID.getD ""))).length
      = (ps.filter (fun p =>
          (imageErrMsg env r (ISO_LABOR_ID.getD "") (ISO_ITEM_ID.getD "") p).isSome)).length
    ∧ (∀ p m, imageErrMsg env r (ISO_LABOR_ID.getD "") (ISO_ITEM_ID.getD "") p = some m →
        strIn p m = true) := by
  have main : dvi_iso_inspection ISO_LABOR_ID ISO_ITEM_ID env u d
      { multipart := false, files := [], ro_number := some r,
        comments := some c, condition := none, image_paths := some ps,
        images_base64 := none, move_to_start := none,
        move_to_complete := none }
      = { httpStatus := 200, ok := true, error := none,
          blobs := ps.filterMap (imageOkBlob env r (ISO_LABOR_ID.getD "") (ISO_ITEM_ID.getD "")),
          upload_errors :=
            ps.filterMap (imageErrMsg env r (ISO_LABOR_ID.getD "") (ISO_ITEM_ID.getD "")),
          trace := [VendorOp.login]
            ++ ps.flatMap (imageOps env r (ISO_LABOR_ID.getD "") (ISO_ITEM_ID.getD ""))
            ++ [VendorOp.saveChecklist
                { RONumber := r, LaborID := ISO_LABOR_ID.getD "",
                  ItemID := ISO_ITEM_ID.getD "",
                  Condition := if c ≠ "" then "Failed Inspection" else "",
                  Comments := c, ROType := "R" }]
            ++ [VendorOp.changeStatus r "3"] ++ [VendorOp.changeStatus r "4"],
          created := [], staged := [], deleted := cleanupDeleted ps [] d } := by
    unfold dvi_iso_inspection
    have hro : truthyOpt (some r) = true := by simp [truthyOpt, hr]
    have hstatic : (truthyOpt ISO_LABOR_ID && truthyOpt ISO_ITEM_ID) = true := by decide
    simp only [hro, Bool.not_true, Bool.false_eq_true, if_false,
      Option.getD_some, stageFiles, stageB64, List.nil_append, List.append_nil,
      resolve_iso_labor_and_item, hstatic, if_true, hlogin,
      finalFlagTrue, pyStr, Option.getD_none]
    rw [foldl_imageStep]
    obtain ⟨v1, hv1⟩ := (exceptOk_iff _).mp (hsave
      { RONumber := r, LaborID := ISO_LABOR_ID.getD "",
        ItemID := ISO_ITEM_ID.getD "",
        Condition := if ("" : String) ≠ "" then ""
          else if c ≠ "" then "Failed Inspection" else "",
        Comments := c, ROType := "R" })
    rw [hv1]
    simp only [show ((lowerStr "true" == "true") = true) from by decide, if_true]
    obtain ⟨v3, hv3⟩ := (exceptOk_iff _).mp (hstat r "3")
    obtain ⟨v4, hv4⟩ := (exceptOk_iff _).mp (hstat r "4")
    rw [hv3, hv4]
    simp [show (if ("" : String) ≠ "" then ""
        else if c ≠ "" then "Failed Inspection" else "")
      = (if c ≠ "" then "Failed Inspection" else "") from by simp]
  refine ⟨by rw [main], by rw [main], by rw [main], by rw [main],
    length_filterMap_eq _ _,
    fun p m h => imageErrMsg_mentions_path env r _ _ p m h⟩

/-- A vendor whose media upload fails for path `"p2"` only. -/
def envUploadFail : VendorEnv :=
  { envAllOk with
    saveMedia := fun p => if p = "p2" then .error "HTTP 500" else .ok ("blob-" ++ p) }

/-- Witness for C3: two images, one failing upload — one blob, one error
entry naming the failing path, `ok` response. -/
theorem c3_per_image_isolation_witness :
    (dvi_iso_inspection ISO_LABOR_ID ISO_ITEM_ID envUploadFail u0 (fun _ => false)
        { multipart := false, files := [], ro_number := some "12345",
          comments := some "Brake pads worn", condition := none,
          image_paths := some ["p1", "p2"], images_base64 := none,
          move_to_start := none, move_to_complete := none }).ok = true
    ∧ (dvi_iso_inspection ISO_LABOR_ID ISO_ITEM_ID envUploadFail u0 (fun _ => false)
        { multipart := false, files := [], ro_number := some "12345",
          comments := some "Brake pads worn", condition := none,
          image_paths := some ["p1", "p2"], images_base64 := none,
          move_to_start := none, move_to_complete := none }).blobs
      = ["p1", "p2"].filterMap
          (imageOkBlob envUploadFail "12345" (ISO_LABOR_ID.getD "") (ISO_ITEM_ID.getD ""))
    ∧ (dvi_iso_inspection ISO_LABOR_ID ISO_ITEM_ID envUploadFail u0 (fun _ => false)
        { multipart := false, files := [], ro_number := some "12345",
          comments := some "Brake pads worn", condition := none,
          image_paths := some ["p1", "p2"], images_base64 := none,
          move_to_start := none, move_to_complete := none }).upload_errors
      = ["p1", "p2"].filterMap
          (imageErrMsg envUploadFail "12345" (ISO_LABOR_ID.getD "") (ISO_ITEM_ID.getD "")) :=
  ⟨(c3_per_image_isolation "12345" "Brake pads worn" "tok" ["p1", "p2"]
      envUploadFail u0 (fun _ => false) (by decide) rfl
      (fun _ => rfl) (fun _ _ => rfl)).1,
    (c3_per_image_isolation "12345" "Brake pads worn" "tok" ["p1", "p2"]
      envUploadFail u0 (fun _ => false) (by decide) rfl
      (fun _ => rfl) (fun _ _ => rfl)).2.2.1,
    (c3_per_image_isolation "12345" "Brake pads worn" "tok" ["p1", "p2"]
      envUploadFail u0 (fun _ => false) (by decide) rfl
      (fun _ => rfl) (fun _ _ => rfl)).2.2.2.1⟩

/-! ## Claim C9: temp-file cleanup -/

theorem path_jpg_data (h : String) :
    ("./tmp_" ++ h ++ ".jpg").data
      = ['.', '/', 't', 'm', 'p', '_'] ++ (h.data ++ ['.', 'j', 'p', 'g']) := by
  rw [String.data_append, String.data_append, List.append_assoc]

theorem path_b64_data (h f : String) :
    ("./tmp_" ++ h ++ "_" ++ f).data
      = ['.', '/', 't', 'm', 'p', '_'] ++ (h.data ++ ('_' :: f.data)) := by
  rw [String.data_append, String.data_append, String.data_append,
    List.append_assoc, List.append_assoc]
  rfl

/-- A path of the form `./tmp_…` with a slash-free tail has a basename
starting with `tmp_`. -/
theorem tmp_prefix_of_shape (p : String) (y : List Char)
    (hp : p.data = ['.', '/', 't', 'm', 'p', '_'] ++ y) (hy : '/' ∉ y) :
    listPreB "tmp_".toList (baseName p).toList = true := by
  have hb : (baseName p).toList = ['t', 'm', 'p', '_'] ++ y := by
    show (p.data.reverse.takeWhile (fun c => c != '/')).reverse
      = ['t', 'm', 'p', '_'] ++ y
    rw [hp, List.reverse_append,
      show (['.', '/', 't', 'm', 'p', '_'] : List Char).reverse
        = ['_', 'p', 'm', 't', '/', '.'] from by decide,
      List.takeWhile_append,
      List.takeWhile_eq_self_iff.mpr (fun c hc => by
        simp only [bne_iff_ne, ne_eq]
        intro hcc
        subst hcc
        exact hy (List.mem_reverse.mp hc)),
      if_pos rfl,
      show List.takeWhile (fun c => c != '/') (['_', 'p', 'm', 't', '/', '.'] : List Char)
        = ['_', 'p', 'm', 't'] from by decide,
      List.reverse_append, List.reverse_reverse,
      show (['_', 'p', 'm', 't'] : List Char).reverse = ['t', 'm', 'p', '_'] from by decide]
  rw [hb]
  exact listPreB_append_self ['t', 'm', 'p', '_'] y

theorem stageFiles_shape (fs : List MPFile) (u : Nat → String) (n : Nat) :
    ∀ p ∈ (stageFiles fs u n).1, ∃ k, p = "./tmp_" ++ u k ++ ".jpg" := by
  induction fs generalizing n with
  | nil => simp [stageFiles]
  | cons f fs ih =>
    intro p hp
    by_cases hf : f.filename = ""
    · exact ih n p (by simpa [stageFiles, hf] using hp)
    · cases hsf : stageFiles fs u (n + 1) with
      | mk rest n1 =>
        simp only [stageFiles, hf, if_false, hsf, List.mem_cons] at hp
        rcases hp with rfl | hp
        · exact ⟨n, rfl⟩
        · have := ih (n + 1) p
          rw [hsf] at this
          exact this hp

theorem stageB64_appended_sub (es : List B64Entry) (u : Nat → String) (n : Nat) :
    ∀ p ∈ (stageB64 es u n).2.1, p ∈ (stageB64 es u n).1 := by
  induction es generalizing n with
  | nil => simp [stageB64]
  | cons e es ih =>
    intro p hp
    have step : ∀ (s : String) (fname : String), s ≠ "" →
        p ∈ (stageB64 (e :: es) u n).2.1 →
        (stageB64 (e :: es) u n)
          = (if b64decode_ok s
              then (("./tmp_" ++ u (n + 1) ++ "_" ++ fname) :: (stageB64 es u (n + 2)).1,
                    ("./tmp_" ++ u (n + 1) ++ "_" ++ fname) :: (stageB64 es u (n + 2)).2.1,
                    (stageB64 es u (n + 2)).2.2)
              else (("./tmp_" ++ u (n + 1) ++ "_" ++ fname) :: (stageB64 es u (n + 2)).1,
                    (stageB64 es u (n + 2)).2.1, (stageB64 es u (n + 2)).2.2)) →
        p ∈ (stageB64 (e :: es) u n).1 := by
      intro s fname hs hp2 heq
      rw [heq] at hp2 ⊢
      by_cases hd : b64decode_ok s
      · simp only [hd, if_true, List.mem_cons] at hp2 ⊢
        rcases hp2 with h1 | h2
        · exact Or.inl h1
        · exact Or.inr (ih (n + 2) p h2)
      · simp only [hd, Bool.false_eq_true, if_false, List.mem_cons] at hp2 ⊢
        exact Or.inr (ih (n + 2) p hp2)
    cases e with
    | str s =>
      by_cases hs : s = ""
      · simp only [stageB64, hs, if_pos rfl] at hp ⊢
        exact ih (n + 1) p hp
      · refine step s ("img_" ++ u n ++ ".jpg") hs hp ?_
        simp only [stageB64, hs, if_neg hs]
        cases hsb : stageB64 es u (n + 2) with
        | mk cr rest =>
          cases rest with
          | mk ap n2 => by_cases hd : b64decode_ok s <;> simp [hd]
    | obj fn dt =>
      cases dt with
      | none =>
        simp only [stageB64] at hp ⊢
        exact ih (n + 1) p hp
      | some s =>
        by_cases hs : s = ""
        · simp only [stageB64, hs, if_pos rfl] at hp ⊢
          exact ih (n + 1) p hp
        · refine step s (fn.getD ("img_" ++ u n ++ ".jpg")) hs hp ?_
          simp only [stageB64, hs, if_neg hs]
          cases hsb : stageB64 es u (n + 2) with
          | mk cr rest =>
            cases rest with
            | mk ap n2 => by_cases hd : b64decode_ok s <;> simp [hd]

theorem slashFree_append (a b : String) (ha : '/' ∉ a.data) (hb : '/' ∉ b.data) :
    '/' ∉ (a ++ b).data := by
  rw [String.data_append]
  intro hm
  rcases List.mem_append.mp hm with h | h
  · exact ha h
  · exact hb h

theorem slashFree_genName (h : String) (hh : '/' ∉ h.data) :
    '/' ∉ ("img_" ++ h ++ ".jpg").data := by
  refine slashFree_append _ _ (slashFree_append _ _ ?_ hh) ?_
  · decide
  · decide

theorem stageB64_created_shape (es : List B64Entry) (u : Nat → String) (n : Nat)
    (hu : ∀ m, '/' ∉ (u m).data)
    (hfn : ∀ fname dt, B64Entry.obj (some fname) dt ∈ es → '/' ∉ fname.data) :
    ∀ p ∈ (stageB64 es u n).1,
      ∃ k fname, p = "./tmp_" ++ u k ++ "_" ++ fname ∧ '/' ∉ fname.data := by
  induction es generalizing n with
  | nil => simp [stageB64]
  | cons e es ih =>
    have hfn2 : ∀ fname dt, B64Entry.obj (some fname) dt ∈ es → '/' ∉ fname.data :=
      fun f dt hm => hfn f dt (List.mem_cons_of_mem _ hm)
    intro p hp
    have step : ∀ (s fname : String), s ≠ "" → '/' ∉ fname.data →
        (stageB64 (e :: es) u n)
          = (if b64decode_ok s
              then (("./tmp_" ++ u (n + 1) ++ "_" ++ fname) :: (stageB64 es u (n + 2)).1,
                    ("./tmp_" ++ u (n + 1) ++ "_" ++ fname) :: (stageB64 es u (n + 2)).2.1,
                    (stageB64 es u (n + 2)).2.2)
              else (("./tmp_" ++ u (n + 1) ++ "_" ++ fname) :: (stageB64 es u (n + 2)).1,
                    (stageB64 es u (n + 2)).2.1, (stageB64 es u (n + 2)).2.2)) →
        ∃ k fname2, p = "./tmp_" ++ u k ++ "_" ++ fname2 ∧ '/' ∉ fname2.data := by
      intro s fname hs hname heq
      rw [heq] at hp
      by_cases hd : b64decode_ok s
      · simp only [hd, if_true, List.mem_cons] at hp
        rcases hp with h1 | h2
        · exact ⟨n + 1, fname, h1, hname⟩
        · exact ih (n + 2) hfn2 p h2
      · simp only [hd, Bool.false_eq_true, if_false, List.mem_cons] at hp
        rcases hp with h1 | h2
        · exact ⟨n + 1, fname, h1, hname⟩
        · exact ih (n + 2) hfn2 p h2
    cases e with
    | str s =>
      by_cases hs : s = ""
      · simp only [stageB64, hs, if_pos rfl] at hp
        exact ih (n + 1) hfn2 p hp
      · refine step s ("img_" ++ u n ++ ".jpg") hs (slashFree_genName _ (hu n)) ?_
        simp only [stageB64, hs, if_neg hs]
        cases hsb : stageB64 es u (n + 2) with
        | mk cr rest =>
          cases rest with
          | mk ap n2 => by_cases hd : b64decode_ok s <;> simp [hd]
    | obj fn dt =>
      have hfree : '/' ∉ (fn.getD ("img_" ++ u n ++ ".jpg")).data := by
        cases fn with
        | none => exact slashFree_genName _ (hu n)
        | some f => exact hfn f dt (List.mem_cons_self _ _)
      cases dt with
      | none =>
        simp only [stageB64] at hp
        exact ih (n + 1) hfn2 p hp
      | some s =>
        by_cases hs : s = ""
        · simp only [stageB64, hs, if_pos rfl] at hp
          exact ih (n + 1) hfn2 p hp
        · refine step s (fn.getD ("img_" ++ u n ++ ".jpg")) hs hfree ?_
          simp only [stageB64, hs, if_neg hs]
          cases hsb : stageB64 es u (n + 2) with
          | mk cr rest =>
            cases rest with
            | mk ap n2 => by_cases hd : b64decode_ok s <;> simp [hd]

/-- The staged/created/deleted bookkeeping is the same in every non-400
branch of the handler. -/
theorem iso_fields (sl si : Option String) (env : VendorEnv) (u : Nat → String)
    (d : String → Bool) (req : IsoReq) (hro : truthyOpt req.ro_number = true) :
    (dvi_iso_inspection sl si env u d req).staged
        = (stageFiles (if req.multipart then req.files else []) u 0).1
          ++ (stageB64 (if req.multipart then [] else req.images_base64.getD []) u
              (stageFiles (if req.multipart then req.files else []) u 0).2).2.1
    ∧ (dvi_iso_inspection sl si env u d req).created
        = (stageFiles (if req.multipart then req.files else []) u 0).1
          ++ (stageB64 (if req.multipart then [] else req.images_base64.getD []) u
              (stageFiles (if req.multipart then req.files else []) u 0).2).1
    ∧ (dvi_iso_inspection sl si env u d req).deleted
        = cleanupDeleted
            ((stageFiles (if req.multipart then req.files else []) u 0).1
              ++ (if req.multipart then [] else req.image_paths.getD [])
              ++ (stageB64 (if req.multipart then [] else req.images_base64.getD []) u
                  (stageFiles (if req.multipart then req.files else []) u 0).2).2.1)
            ((stageFiles (if req.multipart then req.files else []) u 0).1
              ++ (stageB64 (if req.multipart then [] else req.images_base64.getD []) u
                  (stageFiles (if req.multipart then req.files else []) u 0).2).1) d := by
  unfold dvi_iso_inspection
  simp only [hro, Bool.not_true, Bool.false_eq_true, if_false]
  repeat' split
  all_goals simp

/-- The request of the C9 counterexample: one base64 image entry whose
payload `"abc"` is not decodable (three base64 characters). -/
def isoReqBadB64 : IsoReq :=
  { multipart := false, files := [], ro_number := some "12345",
    comments := some "", condition := none,
    image_paths := none, images_base64 := some [.obj none (some "abc")],
    move_to_start := none, move_to_complete := none }

/-- C9 counterexample: the handler opens a temp file for a base64 entry,
the decode of `"abc"` raises after the file is created, the per-entry
`except` swallows the error without recording the path, and the `finally`
cleanup — which only walks `image_paths` — never deletes the file. -/
theorem c9_cleanup_counterexample :
    b64decode_ok "abc" = false
    ∧ (dvi_iso_inspection ISO_LABOR_ID ISO_ITEM_ID envAllOk u0 (fun _ => false)
        isoReqBadB64).created = ["./tmp_hex1_img_hex0.jpg"]
    ∧ (dvi_iso_inspection ISO_LABOR_ID ISO_ITEM_ID envAllOk u0 (fun _ => false)
        isoReqBadB64).deleted = []
    ∧ "./tmp_hex1_img_hex0.jpg"
        ∈ (dvi_iso_inspection ISO_LABOR_ID ISO_ITEM_ID envAllOk u0 (fun _ => false)
            isoReqBadB64).created
    ∧ "./tmp_hex1_img_hex0.jpg"
        ∉ (dvi_iso_inspection ISO_LABOR_ID ISO_ITEM_ID envAllOk u0 (fun _ => false)
            isoReqBadB64).deleted := by
  refine ⟨by decide, by decide, by decide, by decide, by decide⟩

/-- C9 (amended): every temp file the handler stages into `image_paths` —
each multipart upload and each base64 image whose payload decodes — is
deleted by the `finally` cleanup on success and failure alike (uuid hexes
and supplied base64 filenames being slash-free); only a file opened for a
base64 entry whose decode then raises is left behind. -/
theorem c9_cleanup_amended (sl si : Option String) (env : VendorEnv)
    (u : Nat → String) (d : String → Bool) (req : IsoReq)
    (hu : ∀ m, '/' ∉ (u m).data)
    (hfn : ∀ fname dt, B64Entry.obj (some fname) dt ∈ req.images_base64.getD []
      → '/' ∉ fname.data) :
    ∀ p ∈ (dvi_iso_inspection sl si env u d req).staged,
      p ∈ (dvi_iso_inspection sl si env u d req).deleted := by
  have hfn2 : ∀ fname dt,
      B64Entry.obj (some fname) dt ∈ (if req.multipart then [] else req.images_base64.getD [])
      → '/' ∉ fname.data := by
    intro f dt hm
    by_cases hmp : req.multipart
    · simp [hmp] at hm
    · exact hfn f dt (by simpa [hmp] using hm)
  intro p hp
  by_cases hro : truthyOpt req.ro_number
  · obtain ⟨hstag, hcre, hdel⟩ := iso_fields sl si env u d req hro
    rw [hstag] at hp
    rw [hdel]
    have hinclean : p ∈ (stageFiles (if req.multipart then req.files else []) u 0).1
        ++ ((if req.multipart then [] else req.image_paths.getD [])
          ++ (stageB64 (if req.multipart then [] else req.images_base64.getD []) u
              (stageFiles (if req.multipart then req.files else []) u 0).2).2.1) := by
      rcases List.mem_append.mp hp with h | h
      · exact List.mem_append.mpr (Or.inl h)
      · exact List.mem_append.mpr (Or.inr (List.mem_append.mpr (Or.inr h)))
    have hincre : p ∈ (stageFiles (if req.multipart then req.files else []) u 0).1
        ++ (stageB64 (if req.multipart then [] else req.images_base64.getD []) u
            (stageFiles (if req.multipart then req.files else []) u 0).2).1 := by
      rcases List.mem_append.mp hp with h | h
      · exact List.mem_append.mpr (Or.inl h)
      · exact List.mem_append.mpr (Or.inr (stageB64_appended_sub _ u _ p h))
    have hpre : listPreB "tmp_".toList (baseName p).toList = true := by
      rcases List.mem_append.mp hp with h | h
      · obtain ⟨k, rfl⟩ := stageFiles_shape _ u 0 p h
        refine tmp_prefix_of_shape _ ((u k).data ++ ['.', 'j', 'p', 'g'])
          (path_jpg_data (u k)) ?_
        intro hm
        rcases List.mem_append.mp hm with h2 | h2
        · exact hu k h2
        · exact absurd h2 (by decide)
      · have hc := stageB64_appended_sub _ u _ p h
        obtain ⟨k, fname, rfl, hfree⟩ := stageB64_created_shape _ u _ hu hfn2 p hc
        refine tmp_prefix_of_shape _ ((u k).data ++ ('_' :: fname.data))
          (path_b64_data (u k) fname) ?_
        intro hm
        rcases List.mem_append.mp hm with h2 | h2
        · exact hu k h2
        · rcases List.mem_cons.mp h2 with h3 | h3
          · exact absurd h3 (by decide)
          · exact hfree h3
    unfold cleanupDeleted
    refine List.mem_filter.mpr ⟨by simpa using hinclean, ?_⟩
    rw [Bool.and_eq_true]
    refine ⟨?_, hpre⟩
    rw [Bool.or_eq_true]
    exact Or.inl (List.elem_iff.mpr hincre)
  · have h0 : (dvi_iso_inspection sl si env u d req).staged = [] := by
      unfold dvi_iso_inspection
      simp [hro]
    rw [h0] at hp
    simp at hp

/-- The request of the C9 witness: one decodable base64 image entry. -/
def isoReqGoodB64 : IsoReq :=
  { multipart := false, files := [], ro_number := some "12345",
    comments := some "", condition := none,
    image_paths := none, images_base64 := some [.obj none (some "aGVsbG8=")],
    move_to_start := none, move_to_complete := none }

/-- Witness for C9 (amended): the staged temp file of a decodable base64
image is among the deleted files. -/
theorem c9_cleanup_amended_witness :
    "./tmp_cafe_img_cafe.jpg"
      ∈ (dvi_iso_inspection ISO_LABOR_ID ISO_ITEM_ID envAllOk uA (fun _ => false)
          isoReqGoodB64).deleted :=
  c9_cleanup_amended ISO_LABOR_ID ISO_ITEM_ID envAllOk uA (fun _ => false)
    isoReqGoodB64 (fun _ => (by decide : '/' ∉ ("cafe" : String).data))
    (fun f dt hm => by simp [isoReqGoodB64] at hm)
    "./tmp_cafe_img_cafe.jpg" (by decide)

end DVI
